import Mathlib

/-!
Shallow embedding of `main.go` from `go-aws-enumerator`.

The program is a linear sequence of IAM API calls with formatted console
output.  We model:

* the IAM client as a record of `Except`-valued responses (`IamClient`);
  Go pointer fields (`*string`, `*time.Time`, `*types.User`, …) become
  `Option` fields, and dereferencing a `nil` pointer (a Go panic) is the
  `none` outcome of the whole run;
* standard input as a list of tokens consumed by `fmt.Scanln`;
* standard output as the list of strings emitted by `fmt.Print*`
  (each `Println` payload carries its trailing newline);
* every API invocation is also recorded in a call trace (`ApiCall`), so
  that claims about which queries are attempted are expressible;
* `net/url.QueryUnescape` (and, for the round-trip property, its inverse
  `QueryEscape`) byte-for-byte, with bytes as `Nat` values `< 256`.

Timestamps (`time.Time` rendered by `%v`) are modelled as their rendered
strings.
-/

namespace AwsEnumerator

/-- `types.User`: all four fields are pointers in the SDK. -/
structure User where
  userName : Option String
  arn : Option String
  userId : Option String
  createDate : Option String
  deriving DecidableEq

/-- `types.Group`: all four fields are pointers in the SDK. -/
structure Group where
  groupName : Option String
  arn : Option String
  groupId : Option String
  createDate : Option String
  deriving DecidableEq

/-- `types.AttachedPolicy`: both fields are pointers in the SDK. -/
structure AttachedPolicy where
  policyName : Option String
  policyArn : Option String
  deriving DecidableEq

/-- `types.PolicyVersion` as used here: version id, creation date and the
URL-encoded document, all pointers in the SDK. -/
structure PolicyVersion where
  versionId : Option String
  createDate : Option String
  document : Option String
  deriving DecidableEq

/-- `iam.GetUserOutput`: the `User` field is itself a pointer. -/
structure GetUserOutput where
  user : Option User
  deriving DecidableEq

/-- `iam.ListGroupsForUserOutput`. -/
structure ListGroupsForUserOutput where
  groups : List Group
  deriving DecidableEq

/-- `iam.ListAttachedUserPoliciesOutput`. -/
structure ListAttachedUserPoliciesOutput where
  attachedPolicies : List AttachedPolicy
  deriving DecidableEq

/-- `iam.ListUserPoliciesOutput`: `PolicyNames` is a `[]string` of plain
strings, not pointers. -/
structure ListUserPoliciesOutput where
  policyNames : List String
  deriving DecidableEq

/-- `iam.ListPolicyVersionsOutput`. -/
structure ListPolicyVersionsOutput where
  versions : List PolicyVersion
  deriving DecidableEq

/-- `iam.GetPolicyVersionOutput`: the `PolicyVersion` field is a pointer. -/
structure GetPolicyVersionOutput where
  policyVersion : Option PolicyVersion
  deriving DecidableEq

/-- An API error, modelled by its rendered message (`%v` of the Go error). -/
abbrev ApiError := String

/-- The IAM client capability: each SDK method either returns its typed
output or fails.  Responses may depend on the request arguments. -/
structure IamClient where
  getUser : Except ApiError GetUserOutput
  listGroupsForUser : String → Except ApiError ListGroupsForUserOutput
  listAttachedUserPolicies : String → Except ApiError ListAttachedUserPoliciesOutput
  listUserPolicies : String → Except ApiError ListUserPoliciesOutput
  listPolicyVersions : String → Except ApiError ListPolicyVersionsOutput
  getPolicyVersion : String → String → Except ApiError GetPolicyVersionOutput

/-- A record of one remote API invocation, with its request arguments. -/
inductive ApiCall where
  | getUser
  | listGroupsForUser (username : String)
  | listAttachedUserPolicies (username : String)
  | listUserPolicies (username : String)
  | listPolicyVersions (policyArn : String)
  | getPolicyVersion (policyArn : String) (versionId : String)
  deriving DecidableEq

/-- Final state of a (non-panicking) run: remaining stdin tokens, the
emitted output chunks in order, and the API calls made in order. -/
structure RunState where
  stdin : List String
  out : List String
  calls : List ApiCall
  deriving DecidableEq

/-- One `fmt.Scanln` into a string variable: consume the next token, or
leave the variable empty at end of input. -/
def scan1 : List String → String × List String
  | [] => ("", [])
  | x :: xs => (x, xs)

def MAJOR_SEPARATOR : String := "====================================="
def MINOR_SEPARATOR : String := "-------------------------------------"

/-! ### `net/url` percent-decoding, byte for byte

`url.QueryUnescape` works on the bytes of its argument: `%XY` with two
hex digits becomes the byte `0xXY`, a `%` not followed by two hex digits
is an error, `+` becomes space, every other byte is copied.  Bytes are
`Nat` values; the result is `none` exactly when Go returns an error. -/

/-- Value of a hex-digit byte (`0-9`, `A-F`, `a-f`), or `none`. -/
def hexDigitValue (b : Nat) : Option Nat :=
  if 48 ≤ b ∧ b ≤ 57 then some (b - 48)
  else if 65 ≤ b ∧ b ≤ 70 then some (b - 55)
  else if 97 ≤ b ∧ b ≤ 102 then some (b - 87)
  else none

/-- `url.QueryUnescape` on a byte sequence (37 = percent, 43 = plus,
32 = space). -/
def queryUnescapeBytes : List Nat → Option (List Nat)
  | [] => some []
  | b :: bs =>
    if b = 37 then
      match bs with
      | a :: c :: rest =>
        match hexDigitValue a, hexDigitValue c with
        | some ha, some hc => (queryUnescapeBytes rest).map ((16 * ha + hc) :: ·)
        | _, _ => none
      | _ => none
    else if b = 43 then (queryUnescapeBytes bs).map ((32 : Nat) :: ·)
    else (queryUnescapeBytes bs).map (b :: ·)

/-- Bytes `url.QueryEscape` leaves unescaped: alphanumerics and
`-`, `_`, `.`, `~`. -/
def isUnreservedByte (b : Nat) : Bool :=
  decide ((65 ≤ b ∧ b ≤ 90) ∨ (97 ≤ b ∧ b ≤ 122) ∨ (48 ≤ b ∧ b ≤ 57) ∨
    b = 45 ∨ b = 95 ∨ b = 46 ∨ b = 126)

/-- Byte value of the uppercase hex digit for `n < 16`. -/
def upperHexDigit (n : Nat) : Nat :=
  if n < 10 then 48 + n else 55 + n

/-- `url.QueryEscape` of a single byte: kept, `+` for space, or `%XY`. -/
def queryEscapeByte (b : Nat) : List Nat :=
  if isUnreservedByte b then [b]
  else if b = 32 then [43]
  else [37, upperHexDigit (b / 16), upperHexDigit (b % 16)]

/-- `url.QueryEscape` on a byte sequence. -/
def queryEscapeBytes (bs : List Nat) : List Nat :=
  bs.flatMap queryEscapeByte

/-- `url.QueryUnescape` at the `String` level, as called by the program
(characters stand for the bytes of the document, which is ASCII). -/
def queryUnescape (s : String) : Option String :=
  (queryUnescapeBytes (s.toList.map Char.toNat)).map
    (fun bs => (bs.map Char.ofNat).asString)

/-! ### The program's own functions -/

/-- `GetUserDetails` (`main.go:193`): calls `GetUser`, logging the error
on failure.  Result, output emitted, calls made. -/
def GetUserDetails (client : IamClient) :
    Except ApiError GetUserOutput × List String × List ApiCall :=
  match client.getUser with
  | .error e =>
    (.error e, ["Couldn't get details for the user. Here's why: " ++ e ++ "\n"],
      [.getUser])
  | .ok r => (.ok r, [], [.getUser])

/-- `ListUserGroups` (`main.go:204`). -/
def ListUserGroups (client : IamClient) (username : String) :
    Except ApiError ListGroupsForUserOutput × List String × List ApiCall :=
  match client.listGroupsForUser username with
  | .error e =>
    (.error e, ["Couldn't get the groups for the user. Here's why: " ++ e ++ "\n"],
      [.listGroupsForUser username])
  | .ok r => (.ok r, [], [.listGroupsForUser username])

/-- `ListAttachedUserPolicies` (`main.go:217`). -/
def ListAttachedUserPolicies (client : IamClient) (username : String) :
    Except ApiError ListAttachedUserPoliciesOutput × List String × List ApiCall :=
  match client.listAttachedUserPolicies username with
  | .error e =>
    (.error e,
      ["Couldn't get the policies attached to the user. Here's why: " ++ e ++ "\n"],
      [.listAttachedUserPolicies username])
  | .ok r => (.ok r, [], [.listAttachedUserPolicies username])

/-- `ListInlineUserPolicies` (`main.go:230`). -/
def ListInlineUserPolicies (client : IamClient) (username : String) :
    Except ApiError ListUserPoliciesOutput × List String × List ApiCall :=
  match client.listUserPolicies username with
  | .error e =>
    (.error e,
      ["Couldn't get the inline policies attached to the user. Here's why: " ++ e ++ "\n"],
      [.listUserPolicies username])
  | .ok r => (.ok r, [], [.listUserPolicies username])

/-- `ListLatestPolicyVersions` (`main.go:166`). -/
def ListLatestPolicyVersions (client : IamClient) (policyArn : String) :
    Except ApiError ListPolicyVersionsOutput × List String × List ApiCall :=
  match client.listPolicyVersions policyArn with
  | .error e =>
    (.error e,
      ["Couldn't get details for the policy version. Here's why: " ++ e ++ "\n"],
      [.listPolicyVersions policyArn])
  | .ok r => (.ok r, [], [.listPolicyVersions policyArn])

/-- `GetPolicyVersionDetails` (`main.go:179`). -/
def GetPolicyVersionDetails (client : IamClient) (policyArn versionId : String) :
    Except ApiError GetPolicyVersionOutput × List String × List ApiCall :=
  match client.getPolicyVersion policyArn versionId with
  | .error e =>
    (.error e,
      ["Couldn't get details for the policy version. Here's why: " ++ e ++ "\n"],
      [.getPolicyVersion policyArn versionId])
  | .ok r => (.ok r, [], [.getPolicyVersion policyArn versionId])

/-- The group loop of `main.go:62-68`: each group's four field lines plus
the minor separator; `none` if any pointer field is `nil`. -/
def renderGroups : List Group → Option (List String)
  | [] => some []
  | g :: gs => do
    let name ← g.groupName
    let garn ← g.arn
    let gid ← g.groupId
    let gcd ← g.createDate
    let rest ← renderGroups gs
    some (["\tGroup name: " ++ name ++ "\n",
           "\tGroup ARN: " ++ garn ++ "\n",
           "\tGroup ID: " ++ gid ++ "\n",
           "\tCreated on: " ++ gcd ++ "\n",
           MINOR_SEPARATOR ++ "\n"] ++ rest)

/-- The attached-policy loop of `main.go:81-85`. -/
def renderAttachedPolicies : List AttachedPolicy → Option (List String)
  | [] => some []
  | p :: ps => do
    let name ← p.policyName
    let parn ← p.policyArn
    let rest ← renderAttachedPolicies ps
    some (["\tPolicy name: " ++ name ++ "\n",
           "\tPolicy ARN: " ++ parn ++ "\n",
           MINOR_SEPARATOR ++ "\n"] ++ rest)

/-- The version loop of `main.go:130-134` (the bare `fmt.Println()` emits
a newline). -/
def renderVersions : List PolicyVersion → Option (List String)
  | [] => some []
  | v :: vs => do
    let vid ← v.versionId
    let vcd ← v.createDate
    let rest ← renderVersions vs
    some (["\tVersion ID: " ++ vid ++ "\n",
           "\tCreated on: " ++ vcd ++ "\n",
           "\n"] ++ rest)

/-- The inline-policy loop of `main.go:101-104`: names are plain strings,
so no dereference can fail. -/
def renderInlinePolicies (ps : List String) : List String :=
  ps.flatMap (fun p => ["\tPolicy name: " ++ p ++ "\n", MINOR_SEPARATOR ++ "\n"])

/-- `PromptUserForPolicyVersionDetails` (`main.go:110-164`): returns the
output emitted, the remaining stdin and the calls made, or `none` on a
nil-pointer panic. -/
def PromptUserForPolicyVersionDetails (client : IamClient) (stdin : List String) :
    Option (List String × List String × List ApiCall) :=
  let out0 := ["Do you want the details of any policy's version? (y/n): "]
  let (input, stdin1) := scan1 stdin
  if input = "y" then
    let (policyArn, stdin2) := scan1 stdin1
    let out1 := out0 ++ ["Enter the ARN of the policy: ", "Available versions: \n"]
    match ListLatestPolicyVersions client policyArn with
    | (.error _, msgs, cs) =>
      some (out1 ++ msgs ++ ["Couldn't get details for the policy version\n"], stdin2, cs)
    | (.ok policyVersions, msgs, cs) => do
      let versionLines ← renderVersions policyVersions.versions
      let (versionId, stdin3) := scan1 stdin2
      let out2 := out1 ++ msgs ++ versionLines ++
        ["Enter the version ID to retrieve: ",
         "Getting details for version  " ++ versionId ++ "\n"]
      match GetPolicyVersionDetails client policyArn versionId with
      | (.error _, msgs2, cs2) =>
        some (out2 ++ msgs2 ++ ["Couldn't get details for the policy version\n"],
          stdin3, cs ++ cs2)
      | (.ok policyVersionDetails, msgs2, cs2) => do
        let pv ← policyVersionDetails.policyVersion
        let vid ← pv.versionId
        let vcd ← pv.createDate
        let doc ← pv.document
        let out3 := out2 ++ msgs2 ++
          [MAJOR_SEPARATOR ++ "\n", "Policy version details:\n",
           "\tVersion ID: " ++ vid ++ "\n", "\tCreated on: " ++ vcd ++ "\n"]
        match queryUnescape doc with
        | none => some (out3 ++ ["Couldn't encode the document. Exiting...\n"],
            stdin3, cs ++ cs2)
        | some decodedDocument =>
          some (out3 ++ ["\tDocument: \n" ++ decodedDocument ++ "\n",
            MAJOR_SEPARATOR ++ "\n"], stdin3, cs ++ cs2)
  else
    some (out0, stdin1, [])

/-- `func main` (`main.go:16-108`): given the outcome of
`config.LoadDefaultConfig` (error message or client) and the stdin
tokens, yields the final run state, or `none` on a nil-pointer panic. -/
def main (cfg : Except String IamClient) (stdin : List String) : Option RunState :=
  match cfg with
  | .error err =>
    some ⟨stdin,
      ["Couldn't load default configuration. Have you set up your AWS account?\n",
       err ++ "\n"], []⟩
  | .ok iamClient =>
    let out0 := ["Getting details for the current user...\n", MAJOR_SEPARATOR ++ "\n"]
    match GetUserDetails iamClient with
    | (.error _, msgs, cs) =>
      some ⟨stdin, out0 ++ msgs ++
        ["Couldn't get details for the current user. Exiting...\n"], cs⟩
    | (.ok currentUserDetails, msgs, cs) => do
      let user ← currentUserDetails.user
      let userName ← user.userName
      let userArn ← user.arn
      let userId ← user.userId
      let userCreateDate ← user.createDate
      let out1 := out0 ++ msgs ++
        ["User details:\n",
         "\tUsername: " ++ userName ++ "\n",
         "\tUser ARN: " ++ userArn ++ "\n",
         "\tUser ID: " ++ userId ++ "\n",
         "\tCreated on: " ++ userCreateDate ++ "\n",
         MAJOR_SEPARATOR ++ "\n"]
      let out2 := out1 ++
        [MAJOR_SEPARATOR ++ "\n", "Getting groups for the current user...\n",
         MAJOR_SEPARATOR ++ "\n"]
      match ListUserGroups iamClient userName with
      | (.error _, msgs2, cs2) =>
        some ⟨stdin, out2 ++ msgs2 ++
          ["Couldn't get groups for the current user. Exiting...\n"], cs ++ cs2⟩
      | (.ok userGroups, msgs2, cs2) => do
        let groupLines ← renderGroups userGroups.groups
        let out3 := out2 ++ msgs2 ++ groupLines ++
          [MAJOR_SEPARATOR ++ "\n", "Getting attached policies for the current user...\n",
           MAJOR_SEPARATOR ++ "\n"]
        match ListAttachedUserPolicies iamClient userName with
        | (.error _, msgs3, cs3) =>
          some ⟨stdin, out3 ++ msgs3 ++
            ["Couldn't get attached policies for the current user. Exiting...\n"],
            cs ++ cs2 ++ cs3⟩
        | (.ok userPolicies, msgs3, cs3) => do
          let policyLines ← renderAttachedPolicies userPolicies.attachedPolicies
          let out4 := out3 ++ msgs3 ++ policyLines
          let (promptOut, stdin2, promptCalls) ←
            PromptUserForPolicyVersionDetails iamClient stdin
          let out5 := out4 ++ promptOut ++
            [MAJOR_SEPARATOR ++ "\n", "Getting inline policies for the current user...\n",
             MAJOR_SEPARATOR ++ "\n"]
          match ListInlineUserPolicies iamClient userName with
          | (.error _, msgs4, cs4) =>
            some ⟨stdin2, out5 ++ msgs4 ++
              ["Couldn't get inline policies for the current user. Exiting...\n"],
              cs ++ cs2 ++ cs3 ++ promptCalls ++ cs4⟩
          | (.ok userInlinePolicies, msgs4, cs4) =>
            some ⟨stdin2,
              out5 ++ msgs4 ++ renderInlinePolicies userInlinePolicies.policyNames ++
                ["All done!\n"],
              cs ++ cs2 ++ cs3 ++ promptCalls ++ cs4⟩

/-! ### Output-section abbreviations

These name the fixed pieces of the report, exactly as `main` emits them. -/

/-- Lines printed by `main.go:33,37` before the first query. -/
def introSection : List String :=
  ["Getting details for the current user...\n", MAJOR_SEPARATOR ++ "\n"]

/-- The user-details block of `main.go:44-49`. -/
def userSection (un ua uid ucd : String) : List String :=
  ["User details:\n",
   "\tUsername: " ++ un ++ "\n",
   "\tUser ARN: " ++ ua ++ "\n",
   "\tUser ID: " ++ uid ++ "\n",
   "\tCreated on: " ++ ucd ++ "\n",
   MAJOR_SEPARATOR ++ "\n"]

/-- The groups-section header of `main.go:53-55`. -/
def groupsHeader : List String :=
  [MAJOR_SEPARATOR ++ "\n", "Getting groups for the current user...\n",
   MAJOR_SEPARATOR ++ "\n"]

/-- The attached-policies header of `main.go:72-74`. -/
def attachedHeader : List String :=
  [MAJOR_SEPARATOR ++ "\n", "Getting attached policies for the current user...\n",
   MAJOR_SEPARATOR ++ "\n"]

/-- The inline-policies header of `main.go:92-94`. -/
def inlineHeader : List String :=
  [MAJOR_SEPARATOR ++ "\n", "Getting inline policies for the current user...\n",
   MAJOR_SEPARATOR ++ "\n"]

/-- A failure message, as printed by every error path of the program:
each such line begins with the word `Couldn't`.  We classify output
chunks by their first character, which no non-failure chunk shares. -/
def isFailureMessage (s : String) : Bool :=
  s.data.head? == some 'C'

/-- The request argument that is a username, if the call takes one. -/
def usernameArg : ApiCall → Option String
  | .listGroupsForUser x => some x
  | .listAttachedUserPolicies x => some x
  | .listUserPolicies x => some x
  | _ => none

/-! ### Field-presence predicates (the spec's non-null invariant) -/

def UserFieldsPresent (u : User) : Prop :=
  u.userName.isSome ∧ u.arn.isSome ∧ u.userId.isSome ∧ u.createDate.isSome

def GroupFieldsPresent (g : Group) : Prop :=
  g.groupName.isSome ∧ g.arn.isSome ∧ g.groupId.isSome ∧ g.createDate.isSome

def AttachedPolicyFieldsPresent (p : AttachedPolicy) : Prop :=
  p.policyName.isSome ∧ p.policyArn.isSome

def PolicyVersionFieldsPresent (v : PolicyVersion) : Prop :=
  v.versionId.isSome ∧ v.createDate.isSome ∧ v.document.isSome

/-- Every record of every successful response has all its pointer fields
non-null (including the `User` and `PolicyVersion` pointers themselves). -/
def ResponsesAllPresent (c : IamClient) : Prop :=
  (∀ r, c.getUser = .ok r → ∃ u, r.user = some u ∧ UserFieldsPresent u) ∧
  (∀ un r, c.listGroupsForUser un = .ok r → ∀ g ∈ r.groups, GroupFieldsPresent g) ∧
  (∀ un r, c.listAttachedUserPolicies un = .ok r →
    ∀ p ∈ r.attachedPolicies, AttachedPolicyFieldsPresent p) ∧
  (∀ a r, c.listPolicyVersions a = .ok r →
    ∀ v ∈ r.versions, PolicyVersionFieldsPresent v) ∧
  (∀ a vi r, c.getPolicyVersion a vi = .ok r →
    ∃ pv, r.policyVersion = some pv ∧ PolicyVersionFieldsPresent pv)

/-- All four top-level queries succeed (the username being the one the
initial `GetUser` response carries). -/
def AllTopLevelOk (c : IamClient) : Prop :=
  ∃ r u un, c.getUser = .ok r ∧ r.user = some u ∧ u.userName = some un ∧
    (∃ g, c.listGroupsForUser un = .ok g) ∧
    (∃ a, c.listAttachedUserPolicies un = .ok a) ∧
    (∃ i, c.listUserPolicies un = .ok i)

/-! ### Concrete sample data (used by witnesses and counterexamples) -/

def sampleUser : User :=
  ⟨some "alice", some "arn:aws:iam::123456789012:user/alice", some "AIDAALICE",
   some "2020-01-01 00:00:00 +0000 UTC"⟩

def sampleGroup : Group :=
  ⟨some "devs", some "arn:aws:iam::123456789012:group/devs", some "AGPADEVS",
   some "2020-01-02 00:00:00 +0000 UTC"⟩

def samplePolicy : AttachedPolicy :=
  ⟨some "ReadOnlyAccess", some "arn:aws:iam::aws:policy/ReadOnlyAccess"⟩

def sampleVersion : PolicyVersion :=
  ⟨some "v1", some "2020-01-03 00:00:00 +0000 UTC", some "%22policy%20doc%22"⟩

/-- A client whose every call succeeds with fully populated records. -/
def sampleClient : IamClient :=
  { getUser := .ok ⟨some sampleUser⟩
    listGroupsForUser := fun _ => .ok ⟨[sampleGroup]⟩
    listAttachedUserPolicies := fun _ => .ok ⟨[samplePolicy]⟩
    listUserPolicies := fun _ => .ok ⟨["inlinePolicy1"]⟩
    listPolicyVersions := fun _ => .ok ⟨[sampleVersion]⟩
    getPolicyVersion := fun _ _ => .ok ⟨some sampleVersion⟩ }

/-- A client whose initial `GetUser` call fails. -/
def failClient : IamClient :=
  { getUser := .error "AccessDenied"
    listGroupsForUser := fun _ => .error "AccessDenied"
    listAttachedUserPolicies := fun _ => .error "AccessDenied"
    listUserPolicies := fun _ => .error "AccessDenied"
    listPolicyVersions := fun _ => .error "AccessDenied"
    getPolicyVersion := fun _ _ => .error "AccessDenied" }

/-- Like `sampleClient`, but `ListPolicyVersions` fails. -/
def failVersionsClient : IamClient :=
  { sampleClient with listPolicyVersions := fun _ => .error "NoSuchEntity" }

/-- Like `sampleClient`, but with every pointer field of the user nil. -/
def nilFieldClient : IamClient :=
  { sampleClient with getUser := .ok ⟨some ⟨none, none, none, none⟩⟩ }

/-- Like `sampleClient`, but with an empty groups list (the other lists
stay non-empty). -/
def emptyGroupsClient : IamClient :=
  { sampleClient with listGroupsForUser := fun _ => .ok ⟨[]⟩ }

/-- Like `sampleClient`, but with an empty attached-policies list (the
other lists stay non-empty). -/
def emptyAttachedClient : IamClient :=
  { sampleClient with listAttachedUserPolicies := fun _ => .ok ⟨[]⟩ }

/-- Like `sampleClient`, but with an empty inline-policy-names list (the
other lists stay non-empty). -/
def emptyInlineClient : IamClient :=
  { sampleClient with listUserPolicies := fun _ => .ok ⟨[]⟩ }

/-- The run of `sampleClient` that declines the interactive prompt. -/
def sampleRunN : RunState :=
  (main (.ok sampleClient) ["n"]).getD ⟨[], [], []⟩

/-- A group record whose four fields are all present, given by their
values; used to state field-exactness of the printed report. -/
structure GroupData where
  groupName : String
  arn : String
  groupId : String
  createDate : String

def GroupData.toGroup (d : GroupData) : Group :=
  ⟨some d.groupName, some d.arn, some d.groupId, some d.createDate⟩

/-- An attached-policy record whose fields are all present. -/
structure AttachedPolicyData where
  policyName : String
  policyArn : String

def AttachedPolicyData.toPolicy (d : AttachedPolicyData) : AttachedPolicy :=
  ⟨some d.policyName, some d.policyArn⟩

/-! ### String helpers: classifying output chunks by their first character -/

lemma head?_data_append (s t : String) (c : Char) (h : s.data.head? = some c) :
    (s ++ t).data.head? = some c := by
  rw [String.data_append]
  cases hd : s.data with
  | nil => rw [hd] at h; simp at h
  | cons a l => rw [hd] at h; simpa using h

lemma ne_of_firstChar (s t : String) (h : s.data.head? ≠ t.data.head?) : s ≠ t :=
  fun he => h (by rw [he])

lemma append_ne_allDone (s t : String) (c : Char) (hc : s.data.head? = some c)
    (h : c ≠ 'A') : s ++ t ≠ "All done!\n" := by
  apply ne_of_firstChar
  rw [head?_data_append s t c hc]
  simp only [show ("All done!\n" : String).data.head? = some 'A' from rfl]
  exact fun hEq => h (Option.some.inj hEq)

lemma concat3_ne_allDone (p mid suf : String) (c : Char)
    (hp : p.data.head? = some c) (hc : c ≠ 'A') : p ++ mid ++ suf ≠ "All done!\n" :=
  append_ne_allDone (p ++ mid) suf c (head?_data_append p mid c hp) hc

lemma isFailureMessage_append (s t : String) (c : Char) (h : s.data.head? = some c) :
    isFailureMessage (s ++ t) = (c == 'C') := by
  unfold isFailureMessage
  rw [head?_data_append s t c h]
  rfl

/-! ### Behavior of the interactive prompt, branch by branch -/

lemma prompt_skip (client : IamClient) (stdin s1 : List String) (input : String)
    (hs : scan1 stdin = (input, s1)) (h : input ≠ "y") :
    PromptUserForPolicyVersionDetails client stdin =
      some (["Do you want the details of any policy's version? (y/n): "], s1, []) := by
  simp [PromptUserForPolicyVersionDetails, hs, h]

lemma prompt_versions_error (client : IamClient) (stdin s1 s2 : List String)
    (arn e : String)
    (h0 : scan1 stdin = ("y", s1)) (h1 : scan1 s1 = (arn, s2))
    (he : client.listPolicyVersions arn = .error e) :
    PromptUserForPolicyVersionDetails client stdin =
      some (["Do you want the details of any policy's version? (y/n): ",
             "Enter the ARN of the policy: ", "Available versions: \n",
             "Couldn't get details for the policy version. Here's why: " ++ e ++ "\n",
             "Couldn't get details for the policy version\n"], s2,
            [.listPolicyVersions arn]) := by
  simp [PromptUserForPolicyVersionDetails, ListLatestPolicyVersions, h0, h1, he]

lemma prompt_get_error (client : IamClient) (stdin s1 s2 s3 : List String)
    (arn vid e : String) (vs : ListPolicyVersionsOutput) (vlines : List String)
    (h0 : scan1 stdin = ("y", s1)) (h1 : scan1 s1 = (arn, s2))
    (hv : client.listPolicyVersions arn = .ok vs)
    (hr : renderVersions vs.versions = some vlines)
    (h2 : scan1 s2 = (vid, s3))
    (he : client.getPolicyVersion arn vid = .error e) :
    PromptUserForPolicyVersionDetails client stdin =
      some (["Do you want the details of any policy's version? (y/n): ",
             "Enter the ARN of the policy: ", "Available versions: \n"] ++ vlines ++
            ["Enter the version ID to retrieve: ",
             "Getting details for version  " ++ vid ++ "\n",
             "Couldn't get details for the policy version. Here's why: " ++ e ++ "\n",
             "Couldn't get details for the policy version\n"], s3,
            [.listPolicyVersions arn, .getPolicyVersion arn vid]) := by
  simp [PromptUserForPolicyVersionDetails, ListLatestPolicyVersions,
    GetPolicyVersionDetails, h0, h1, hv, hr, h2, he]

lemma prompt_decode_error (client : IamClient) (stdin s1 s2 s3 : List String)
    (arn vid vid2 vcd doc : String) (vs : ListPolicyVersionsOutput)
    (vlines : List String) (r : GetPolicyVersionOutput) (pv : PolicyVersion)
    (h0 : scan1 stdin = ("y", s1)) (h1 : scan1 s1 = (arn, s2))
    (hv : client.listPolicyVersions arn = .ok vs)
    (hr : renderVersions vs.versions = some vlines)
    (h2 : scan1 s2 = (vid, s3))
    (he : client.getPolicyVersion arn vid = .ok r)
    (h3 : r.policyVersion = some pv)
    (h4 : pv.versionId = some vid2) (h5 : pv.createDate = some vcd)
    (h6 : pv.document = some doc) (hq : queryUnescape doc = none) :
    PromptUserForPolicyVersionDetails client stdin =
      some (["Do you want the details of any policy's version? (y/n): ",
             "Enter the ARN of the policy: ", "Available versions: \n"] ++ vlines ++
            ["Enter the version ID to retrieve: ",
             "Getting details for version  " ++ vid ++ "\n",
             MAJOR_SEPARATOR ++ "\n", "Policy version details:\n",
             "\tVersion ID: " ++ vid2 ++ "\n", "\tCreated on: " ++ vcd ++ "\n",
             "Couldn't encode the document. Exiting...\n"], s3,
            [.listPolicyVersions arn, .getPolicyVersion arn vid]) := by
  simp [PromptUserForPolicyVersionDetails, ListLatestPolicyVersions,
    GetPolicyVersionDetails, h0, h1, hv, hr, h2, he, h3, h4, h5, h6, hq]

lemma prompt_decode_ok (client : IamClient) (stdin s1 s2 s3 : List String)
    (arn vid vid2 vcd doc dd : String) (vs : ListPolicyVersionsOutput)
    (vlines : List String) (r : GetPolicyVersionOutput) (pv : PolicyVersion)
    (h0 : scan1 stdin = ("y", s1)) (h1 : scan1 s1 = (arn, s2))
    (hv : client.listPolicyVersions arn = .ok vs)
    (hr : renderVersions vs.versions = some vlines)
    (h2 : scan1 s2 = (vid, s3))
    (he : client.getPolicyVersion arn vid = .ok r)
    (h3 : r.policyVersion = some pv)
    (h4 : pv.versionId = some vid2) (h5 : pv.createDate = some vcd)
    (h6 : pv.document = some doc) (hq : queryUnescape doc = some dd) :
    PromptUserForPolicyVersionDetails client stdin =
      some (["Do you want the details of any policy's version? (y/n): ",
             "Enter the ARN of the policy: ", "Available versions: \n"] ++ vlines ++
            ["Enter the version ID to retrieve: ",
             "Getting details for version  " ++ vid ++ "\n",
             MAJOR_SEPARATOR ++ "\n", "Policy version details:\n",
             "\tVersion ID: " ++ vid2 ++ "\n", "\tCreated on: " ++ vcd ++ "\n",
             "\tDocument: \n" ++ dd ++ "\n", MAJOR_SEPARATOR ++ "\n"], s3,
            [.listPolicyVersions arn, .getPolicyVersion arn vid]) := by
  simp [PromptUserForPolicyVersionDetails, ListLatestPolicyVersions,
    GetPolicyVersionDetails, h0, h1, hv, hr, h2, he, h3, h4, h5, h6, hq]

/-! ### The rendering loops -/

lemma renderGroups_isSome (gs : List Group) (h : ∀ g ∈ gs, GroupFieldsPresent g) :
    (renderGroups gs).isSome := by
  induction gs with
  | nil => simp [renderGroups]
  | cons g gs ih =>
    obtain ⟨hn, ha, hi, hd⟩ := h g (by simp)
    rw [Option.isSome_iff_exists] at hn ha hi hd
    obtain ⟨n, hn⟩ := hn; obtain ⟨a, ha⟩ := ha
    obtain ⟨i, hi⟩ := hi; obtain ⟨d, hd⟩ := hd
    have := ih (fun g hg => h g (by simp [hg]))
    rw [Option.isSome_iff_exists] at this
    obtain ⟨rest, hrest⟩ := this
    simp [renderGroups, hn, ha, hi, hd, hrest]

lemma renderAttachedPolicies_isSome (ps : List AttachedPolicy)
    (h : ∀ p ∈ ps, AttachedPolicyFieldsPresent p) :
    (renderAttachedPolicies ps).isSome := by
  induction ps with
  | nil => simp [renderAttachedPolicies]
  | cons p ps ih =>
    obtain ⟨hn, ha⟩ := h p (by simp)
    rw [Option.isSome_iff_exists] at hn ha
    obtain ⟨n, hn⟩ := hn; obtain ⟨a, ha⟩ := ha
    have := ih (fun p hp => h p (by simp [hp]))
    rw [Option.isSome_iff_exists] at this
    obtain ⟨rest, hrest⟩ := this
    simp [renderAttachedPolicies, hn, ha, hrest]

lemma renderVersions_isSome (vs : List PolicyVersion)
    (h : ∀ v ∈ vs, PolicyVersionFieldsPresent v) :
    (renderVersions vs).isSome := by
  induction vs with
  | nil => simp [renderVersions]
  | cons v vs ih =>
    obtain ⟨hn, ha, _⟩ := h v (by simp)
    rw [Option.isSome_iff_exists] at hn ha
    obtain ⟨n, hn⟩ := hn; obtain ⟨a, ha⟩ := ha
    have := ih (fun v hv => h v (by simp [hv]))
    rw [Option.isSome_iff_exists] at this
    obtain ⟨rest, hrest⟩ := this
    simp [renderVersions, hn, ha, hrest]

lemma renderGroups_ne_allDone (gs : List Group) (ls : List String)
    (h : renderGroups gs = some ls) : ∀ x ∈ ls, x ≠ "All done!\n" := by
  induction gs generalizing ls with
  | nil => simp [renderGroups] at h; subst h; simp
  | cons g gs ih =>
    rcases hn : g.groupName with _ | n <;> rw [renderGroups, hn] at h
    · simp at h
    rcases ha : g.arn with _ | a <;> rw [ha] at h
    · simp at h
    rcases hi : g.groupId with _ | i <;> rw [hi] at h
    · simp at h
    rcases hd : g.createDate with _ | d <;> rw [hd] at h
    · simp at h
    rcases hrest : renderGroups gs with _ | rest <;> rw [hrest] at h
    · simp at h
    simp at h
    subst h
    intro x hx
    simp only [List.cons_append, List.nil_append, List.mem_cons] at hx
    rcases hx with rfl | rfl | rfl | rfl | rfl | hx
    · exact concat3_ne_allDone "\tGroup name: " n "\n" '\t' rfl (by decide)
    · exact concat3_ne_allDone "\tGroup ARN: " a "\n" '\t' rfl (by decide)
    · exact concat3_ne_allDone "\tGroup ID: " i "\n" '\t' rfl (by decide)
    · exact concat3_ne_allDone "\tCreated on: " d "\n" '\t' rfl (by decide)
    · decide
    · exact ih rest hrest x hx

lemma renderAttachedPolicies_ne_allDone (ps : List AttachedPolicy) (ls : List String)
    (h : renderAttachedPolicies ps = some ls) : ∀ x ∈ ls, x ≠ "All done!\n" := by
  induction ps generalizing ls with
  | nil => simp [renderAttachedPolicies] at h; subst h; simp
  | cons p ps ih =>
    rcases hn : p.policyName with _ | n <;> rw [renderAttachedPolicies, hn] at h
    · simp at h
    rcases ha : p.policyArn with _ | a <;> rw [ha] at h
    · simp at h
    rcases hrest : renderAttachedPolicies ps with _ | rest <;> rw [hrest] at h
    · simp at h
    simp at h
    subst h
    intro x hx
    simp only [List.cons_append, List.nil_append, List.mem_cons] at hx
    rcases hx with rfl | rfl | rfl | hx
    · exact concat3_ne_allDone "\tPolicy name: " n "\n" '\t' rfl (by decide)
    · exact concat3_ne_allDone "\tPolicy ARN: " a "\n" '\t' rfl (by decide)
    · decide
    · exact ih rest hrest x hx

lemma renderVersions_ne_allDone (vs : List PolicyVersion) (ls : List String)
    (h : renderVersions vs = some ls) : ∀ x ∈ ls, x ≠ "All done!\n" := by
  induction vs generalizing ls with
  | nil => simp [renderVersions] at h; subst h; simp
  | cons v vs ih =>
    rcases hn : v.versionId with _ | n <;> rw [renderVersions, hn] at h
    · simp at h
    rcases ha : v.createDate with _ | a <;> rw [ha] at h
    · simp at h
    rcases hrest : renderVersions vs with _ | rest <;> rw [hrest] at h
    · simp at h
    simp at h
    subst h
    intro x hx
    simp only [List.cons_append, List.nil_append, List.mem_cons] at hx
    rcases hx with rfl | rfl | rfl | hx
    · exact concat3_ne_allDone "\tVersion ID: " n "\n" '\t' rfl (by decide)
    · exact concat3_ne_allDone "\tCreated on: " a "\n" '\t' rfl (by decide)
    · decide
    · exact ih rest hrest x hx

lemma renderInlinePolicies_ne_allDone (ps : List String) :
    ∀ x ∈ renderInlinePolicies ps, x ≠ "All done!\n" := by
  intro x hx
  simp only [renderInlinePolicies, List.mem_flatMap, List.mem_cons] at hx
  obtain ⟨p, _, hx⟩ := hx
  rcases hx with rfl | rfl | hx
  · exact concat3_ne_allDone "\tPolicy name: " p "\n" '\t' rfl (by decide)
  · decide
  · simp at hx

lemma renderGroups_toGroup (ds : List GroupData) :
    renderGroups (ds.map GroupData.toGroup) = some (ds.flatMap fun d =>
      ["\tGroup name: " ++ d.groupName ++ "\n",
       "\tGroup ARN: " ++ d.arn ++ "\n",
       "\tGroup ID: " ++ d.groupId ++ "\n",
       "\tCreated on: " ++ d.createDate ++ "\n",
       MINOR_SEPARATOR ++ "\n"]) := by
  induction ds with
  | nil => simp [renderGroups]
  | cons d ds ih => simp [renderGroups, GroupData.toGroup, ih]

lemma renderAttachedPolicies_toPolicy (ds : List AttachedPolicyData) :
    renderAttachedPolicies (ds.map AttachedPolicyData.toPolicy) =
      some (ds.flatMap fun d =>
        ["\tPolicy name: " ++ d.policyName ++ "\n",
         "\tPolicy ARN: " ++ d.policyArn ++ "\n",
         MINOR_SEPARATOR ++ "\n"]) := by
  induction ds with
  | nil => simp [renderAttachedPolicies]
  | cons d ds ih => simp [renderAttachedPolicies, AttachedPolicyData.toPolicy, ih]

/-! ### Shapes of full runs of `main` -/

lemma main_getUser_error (c : IamClient) (stdin : List String) (e : ApiError)
    (h : c.getUser = .error e) :
    main (.ok c) stdin = some ⟨stdin,
      introSection ++
      ["Couldn't get details for the user. Here's why: " ++ e ++ "\n",
       "Couldn't get details for the current user. Exiting...\n"], [.getUser]⟩ := by
  simp [main, GetUserDetails, h, introSection]

lemma main_shape (c : IamClient) (stdin : List String) (r : GetUserOutput) (u : User)
    (un ua uid ucd : String) (gr : ListGroupsForUserOutput) (glines : List String)
    (ap : ListAttachedUserPoliciesOutput) (alines po : List String)
    (s2 : List String) (pc : List ApiCall) (ip : ListUserPoliciesOutput)
    (h1 : c.getUser = .ok r) (h2 : r.user = some u) (h3 : u.userName = some un)
    (h4 : u.arn = some ua) (h5 : u.userId = some uid) (h6 : u.createDate = some ucd)
    (h7 : c.listGroupsForUser un = .ok gr) (h8 : renderGroups gr.groups = some glines)
    (h9 : c.listAttachedUserPolicies un = .ok ap)
    (h10 : renderAttachedPolicies ap.attachedPolicies = some alines)
    (h11 : PromptUserForPolicyVersionDetails c stdin = some (po, s2, pc))
    (h12 : c.listUserPolicies un = .ok ip) :
    main (.ok c) stdin = some ⟨s2,
      introSection ++ userSection un ua uid ucd ++ groupsHeader ++ glines ++
        attachedHeader ++ alines ++ po ++ inlineHeader ++
        renderInlinePolicies ip.policyNames ++ ["All done!\n"],
      [.getUser, .listGroupsForUser un, .listAttachedUserPolicies un] ++ pc ++
        [.listUserPolicies un]⟩ := by
  simp [main, GetUserDetails, ListUserGroups, ListAttachedUserPolicies,
    ListInlineUserPolicies, h1, h2, h3, h4, h5, h6, h7, h8, h9, h10, h11, h12,
    introSection, userSection, groupsHeader, attachedHeader, inlineHeader]

lemma main_groups_error (c : IamClient) (stdin : List String) (r : GetUserOutput)
    (u : User) (un ua uid ucd : String) (e : ApiError)
    (h1 : c.getUser = .ok r) (h2 : r.user = some u) (h3 : u.userName = some un)
    (h4 : u.arn = some ua) (h5 : u.userId = some uid) (h6 : u.createDate = some ucd)
    (h7 : c.listGroupsForUser un = .error e) :
    main (.ok c) stdin = some ⟨stdin,
      introSection ++ userSection un ua uid ucd ++ groupsHeader ++
      ["Couldn't get the groups for the user. Here's why: " ++ e ++ "\n",
       "Couldn't get groups for the current user. Exiting...\n"],
      [.getUser, .listGroupsForUser un]⟩ := by
  simp [main, GetUserDetails, ListUserGroups, h1, h2, h3, h4, h5, h6, h7,
    introSection, userSection, groupsHeader]

lemma main_attached_error (c : IamClient) (stdin : List String) (r : GetUserOutput)
    (u : User) (un ua uid ucd : String) (gr : ListGroupsForUserOutput)
    (glines : List String) (e : ApiError)
    (h1 : c.getUser = .ok r) (h2 : r.user = some u) (h3 : u.userName = some un)
    (h4 : u.arn = some ua) (h5 : u.userId = some uid) (h6 : u.createDate = some ucd)
    (h7 : c.listGroupsForUser un = .ok gr) (h8 : renderGroups gr.groups = some glines)
    (h9 : c.listAttachedUserPolicies un = .error e) :
    main (.ok c) stdin = some ⟨stdin,
      introSection ++ userSection un ua uid ucd ++ groupsHeader ++ glines ++
        attachedHeader ++
      ["Couldn't get the policies attached to the user. Here's why: " ++ e ++ "\n",
       "Couldn't get attached policies for the current user. Exiting...\n"],
      [.getUser, .listGroupsForUser un, .listAttachedUserPolicies un]⟩ := by
  simp [main, GetUserDetails, ListUserGroups, ListAttachedUserPolicies,
    h1, h2, h3, h4, h5, h6, h7, h8, h9,
    introSection, userSection, groupsHeader, attachedHeader]

lemma main_inline_error (c : IamClient) (stdin : List String) (r : GetUserOutput)
    (u : User) (un ua uid ucd : String) (gr : ListGroupsForUserOutput)
    (glines : List String) (ap : ListAttachedUserPoliciesOutput)
    (alines po : List String) (s2 : List String) (pc : List ApiCall) (e : ApiError)
    (h1 : c.getUser = .ok r) (h2 : r.user = some u) (h3 : u.userName = some un)
    (h4 : u.arn = some ua) (h5 : u.userId = some uid) (h6 : u.createDate = some ucd)
    (h7 : c.listGroupsForUser un = .ok gr) (h8 : renderGroups gr.groups = some glines)
    (h9 : c.listAttachedUserPolicies un = .ok ap)
    (h10 : renderAttachedPolicies ap.attachedPolicies = some alines)
    (h11 : PromptUserForPolicyVersionDetails c stdin = some (po, s2, pc))
    (h12 : c.listUserPolicies un = .error e) :
    main (.ok c) stdin = some ⟨s2,
      introSection ++ userSection un ua uid ucd ++ groupsHeader ++ glines ++
        attachedHeader ++ alines ++ po ++ inlineHeader ++
      ["Couldn't get the inline policies attached to the user. Here's why: " ++ e ++ "\n",
       "Couldn't get inline policies for the current user. Exiting...\n"],
      [.getUser, .listGroupsForUser un, .listAttachedUserPolicies un] ++ pc ++
        [.listUserPolicies un]⟩ := by
  simp [main, GetUserDetails, ListUserGroups, ListAttachedUserPolicies,
    ListInlineUserPolicies, h1, h2, h3, h4, h5, h6, h7, h8, h9, h10, h11, h12,
    introSection, userSection, groupsHeader, attachedHeader, inlineHeader]

/-! ### Invariants of the interactive branch -/

lemma prompt_invariants (client : IamClient) (stdin : List String)
    (po s2 : List String) (pc : List ApiCall)
    (h : PromptUserForPolicyVersionDetails client stdin = some (po, s2, pc)) :
    (∀ call ∈ pc, usernameArg call = none) ∧ (∀ x ∈ po, x ≠ "All done!\n") := by
  rcases hs0 : scan1 stdin with ⟨input, s1⟩
  by_cases hy : input = "y"
  · subst hy
    rcases hs1 : scan1 s1 with ⟨arn, s2'⟩
    cases hv : client.listPolicyVersions arn with
    | error e =>
      rw [prompt_versions_error client stdin s1 s2' arn e hs0 hs1 hv] at h
      simp only [Option.some.injEq, Prod.mk.injEq] at h
      obtain ⟨rfl, rfl, rfl⟩ := h
      refine ⟨by simp [usernameArg], ?_⟩
      intro x hx
      simp only [List.mem_cons, List.not_mem_nil, or_false] at hx
      rcases hx with rfl | rfl | rfl | rfl | rfl
      · decide
      · decide
      · decide
      · exact concat3_ne_allDone
          "Couldn't get details for the policy version. Here's why: " e "\n" 'C' rfl
          (by decide)
      · decide
    | ok vs =>
      rcases hr : renderVersions vs.versions with _ | vlines
      · simp [PromptUserForPolicyVersionDetails, ListLatestPolicyVersions,
          hs0, hs1, hv, hr] at h
      rcases hs2 : scan1 s2' with ⟨vid, s3⟩
      cases hg : client.getPolicyVersion arn vid with
      | error e =>
        rw [prompt_get_error client stdin s1 s2' s3 arn vid e vs vlines
          hs0 hs1 hv hr hs2 hg] at h
        simp only [Option.some.injEq, Prod.mk.injEq] at h
        obtain ⟨rfl, rfl, rfl⟩ := h
        refine ⟨by simp [usernameArg], ?_⟩
        intro x hx
        simp only [List.cons_append, List.nil_append, List.mem_cons,
          List.mem_append, List.not_mem_nil, or_false] at hx
        rcases hx with rfl | rfl | rfl | hx | rfl | rfl | rfl | rfl
        · decide
        · decide
        · decide
        · exact renderVersions_ne_allDone vs.versions vlines hr x hx
        · decide
        · exact concat3_ne_allDone "Getting details for version  " vid "\n" 'G' rfl
            (by decide)
        · exact concat3_ne_allDone
            "Couldn't get details for the policy version. Here's why: " e "\n" 'C' rfl
            (by decide)
        · decide
      | ok r =>
        rcases hpv : r.policyVersion with _ | pv
        · simp [PromptUserForPolicyVersionDetails, ListLatestPolicyVersions,
            GetPolicyVersionDetails, hs0, hs1, hv, hr, hs2, hg, hpv] at h
        rcases hvid : pv.versionId with _ | vid2
        · simp [PromptUserForPolicyVersionDetails, ListLatestPolicyVersions,
            GetPolicyVersionDetails, hs0, hs1, hv, hr, hs2, hg, hpv, hvid] at h
        rcases hvcd : pv.createDate with _ | vcd
        · simp [PromptUserForPolicyVersionDetails, ListLatestPolicyVersions,
            GetPolicyVersionDetails, hs0, hs1, hv, hr, hs2, hg, hpv, hvid, hvcd] at h
        rcases hdoc : pv.document with _ | doc
        · simp [PromptUserForPolicyVersionDetails, ListLatestPolicyVersions,
            GetPolicyVersionDetails, hs0, hs1, hv, hr, hs2, hg, hpv, hvid, hvcd,
            hdoc] at h
        rcases hq : queryUnescape doc with _ | dd
        · rw [prompt_decode_error client stdin s1 s2' s3 arn vid vid2 vcd doc vs
            vlines r pv hs0 hs1 hv hr hs2 hg hpv hvid hvcd hdoc hq] at h
          simp only [Option.some.injEq, Prod.mk.injEq] at h
          obtain ⟨rfl, rfl, rfl⟩ := h
          refine ⟨by simp [usernameArg], ?_⟩
          intro x hx
          simp only [List.cons_append, List.nil_append, List.mem_cons,
            List.mem_append, List.not_mem_nil, or_false] at hx
          rcases hx with rfl | rfl | rfl | hx | rfl | rfl | rfl | rfl | rfl | rfl | rfl
          · decide
          · decide
          · decide
          · exact renderVersions_ne_allDone vs.versions vlines hr x hx
          · decide
          · exact concat3_ne_allDone "Getting details for version  " vid "\n" 'G' rfl
              (by decide)
          · decide
          · decide
          · exact concat3_ne_allDone "\tVersion ID: " vid2 "\n" '\t' rfl (by decide)
          · exact concat3_ne_allDone "\tCreated on: " vcd "\n" '\t' rfl (by decide)
          · decide
        · rw [prompt_decode_ok client stdin s1 s2' s3 arn vid vid2 vcd doc dd vs
            vlines r pv hs0 hs1 hv hr hs2 hg hpv hvid hvcd hdoc hq] at h
          simp only [Option.some.injEq, Prod.mk.injEq] at h
          obtain ⟨rfl, rfl, rfl⟩ := h
          refine ⟨by simp [usernameArg], ?_⟩
          intro x hx
          simp only [List.cons_append, List.nil_append, List.mem_cons,
            List.mem_append, List.not_mem_nil, or_false] at hx
          rcases hx with rfl | rfl | rfl | hx | rfl | rfl | rfl | rfl | rfl | rfl | rfl | rfl
          · decide
          · decide
          · decide
          · exact renderVersions_ne_allDone vs.versions vlines hr x hx
          · decide
          · exact concat3_ne_allDone "Getting details for version  " vid "\n" 'G' rfl
              (by decide)
          · decide
          · decide
          · exact concat3_ne_allDone "\tVersion ID: " vid2 "\n" '\t' rfl (by decide)
          · exact concat3_ne_allDone "\tCreated on: " vcd "\n" '\t' rfl (by decide)
          · exact concat3_ne_allDone "\tDocument: \n" dd "\n" '\t' rfl (by decide)
          · decide
  · rw [prompt_skip client stdin s1 input hs0 hy] at h
    simp only [Option.some.injEq, Prod.mk.injEq] at h
    obtain ⟨rfl, rfl, rfl⟩ := h
    exact ⟨by simp, by intro x hx; simp at hx; subst hx; decide⟩

lemma prompt_isSome (client : IamClient) (stdin : List String)
    (hv : ∀ a r, client.listPolicyVersions a = .ok r →
      ∀ v ∈ r.versions, PolicyVersionFieldsPresent v)
    (hg : ∀ a vi r, client.getPolicyVersion a vi = .ok r →
      ∃ pv, r.policyVersion = some pv ∧ PolicyVersionFieldsPresent pv) :
    (PromptUserForPolicyVersionDetails client stdin).isSome := by
  rcases hs0 : scan1 stdin with ⟨input, s1⟩
  by_cases hy : input = "y"
  · subst hy
    rcases hs1 : scan1 s1 with ⟨arn, s2'⟩
    cases hvv : client.listPolicyVersions arn with
    | error e => rw [prompt_versions_error client stdin s1 s2' arn e hs0 hs1 hvv]; rfl
    | ok vs =>
      have hvl := renderVersions_isSome vs.versions (hv arn vs hvv)
      rw [Option.isSome_iff_exists] at hvl
      obtain ⟨vlines, hvl⟩ := hvl
      rcases hs2 : scan1 s2' with ⟨vid, s3⟩
      cases hgg : client.getPolicyVersion arn vid with
      | error e =>
        rw [prompt_get_error client stdin s1 s2' s3 arn vid e vs vlines
          hs0 hs1 hvv hvl hs2 hgg]; rfl
      | ok r =>
        obtain ⟨pv, hpv, hfv, hfc, hfd⟩ := hg arn vid r hgg
        rw [Option.isSome_iff_exists] at hfv hfc hfd
        obtain ⟨vid2, hfv⟩ := hfv; obtain ⟨vcd, hfc⟩ := hfc; obtain ⟨doc, hfd⟩ := hfd
        rcases hq : queryUnescape doc with _ | dd
        · rw [prompt_decode_error client stdin s1 s2' s3 arn vid vid2 vcd doc vs
            vlines r pv hs0 hs1 hvv hvl hs2 hgg hpv hfv hfc hfd hq]; rfl
        · rw [prompt_decode_ok client stdin s1 s2' s3 arn vid vid2 vcd doc dd vs
            vlines r pv hs0 hs1 hvv hvl hs2 hgg hpv hfv hfc hfd hq]; rfl
  · rw [prompt_skip client stdin s1 input hs0 hy]; rfl

/-! ### Case analysis of a completed run of `main` -/

set_option maxHeartbeats 2000000 in
lemma main_cases (c : IamClient) (stdin : List String) (st : RunState)
    (r : GetUserOutput) (hgu : c.getUser = .ok r)
    (h : main (.ok c) stdin = some st) :
    ∃ u un ua uid ucd, r.user = some u ∧ u.userName = some un ∧ u.arn = some ua ∧
      u.userId = some uid ∧ u.createDate = some ucd ∧
      ((∃ e, c.listGroupsForUser un = .error e ∧
         st = ⟨stdin, introSection ++ userSection un ua uid ucd ++ groupsHeader ++
           ["Couldn't get the groups for the user. Here's why: " ++ e ++ "\n",
            "Couldn't get groups for the current user. Exiting...\n"],
           [.getUser, .listGroupsForUser un]⟩) ∨
       (∃ gr glines e, c.listGroupsForUser un = .ok gr ∧
         renderGroups gr.groups = some glines ∧
         c.listAttachedUserPolicies un = .error e ∧
         st = ⟨stdin, introSection ++ userSection un ua uid ucd ++ groupsHeader ++
           glines ++ attachedHeader ++
           ["Couldn't get the policies attached to the user. Here's why: " ++ e ++ "\n",
            "Couldn't get attached policies for the current user. Exiting...\n"],
           [.getUser, .listGroupsForUser un, .listAttachedUserPolicies un]⟩) ∨
       (∃ gr glines ap alines po s2 pc e, c.listGroupsForUser un = .ok gr ∧
         renderGroups gr.groups = some glines ∧
         c.listAttachedUserPolicies un = .ok ap ∧
         renderAttachedPolicies ap.attachedPolicies = some alines ∧
         PromptUserForPolicyVersionDetails c stdin = some (po, s2, pc) ∧
         c.listUserPolicies un = .error e ∧
         st = ⟨s2, introSection ++ userSection un ua uid ucd ++ groupsHeader ++
           glines ++ attachedHeader ++ alines ++ po ++ inlineHeader ++
           ["Couldn't get the inline policies attached to the user. Here's why: " ++
              e ++ "\n",
            "Couldn't get inline policies for the current user. Exiting...\n"],
           [.getUser, .listGroupsForUser un, .listAttachedUserPolicies un] ++ pc ++
             [.listUserPolicies un]⟩) ∨
       (∃ gr glines ap alines po s2 pc ip, c.listGroupsForUser un = .ok gr ∧
         renderGroups gr.groups = some glines ∧
         c.listAttachedUserPolicies un = .ok ap ∧
         renderAttachedPolicies ap.attachedPolicies = some alines ∧
         PromptUserForPolicyVersionDetails c stdin = some (po, s2, pc) ∧
         c.listUserPolicies un = .ok ip ∧
         st = ⟨s2, introSection ++ userSection un ua uid ucd ++ groupsHeader ++
           glines ++ attachedHeader ++ alines ++ po ++ inlineHeader ++
           renderInlinePolicies ip.policyNames ++ ["All done!\n"],
           [.getUser, .listGroupsForUser un, .listAttachedUserPolicies un] ++ pc ++
             [.listUserPolicies un]⟩)) := by
  rcases hru : r.user with _ | u
  · simp [main, GetUserDetails, hgu, hru] at h
  rcases hun : u.userName with _ | un
  · simp [main, GetUserDetails, hgu, hru, hun] at h
  rcases hua : u.arn with _ | ua
  · simp [main, GetUserDetails, hgu, hru, hun, hua] at h
  rcases huid : u.userId with _ | uid
  · simp [main, GetUserDetails, hgu, hru, hun, hua, huid] at h
  rcases hucd : u.createDate with _ | ucd
  · simp [main, GetUserDetails, hgu, hru, hun, hua, huid, hucd] at h
  refine ⟨u, un, ua, uid, ucd, rfl, hun, hua, huid, hucd, ?_⟩
  cases hgr : c.listGroupsForUser un with
  | error e =>
    rw [main_groups_error c stdin r u un ua uid ucd e hgu hru hun hua huid hucd hgr]
      at h
    exact .inl ⟨e, rfl, (Option.some.inj h).symm⟩
  | ok gr =>
    rcases hrg : renderGroups gr.groups with _ | glines
    · simp [main, GetUserDetails, ListUserGroups, hgu, hru, hun, hua, huid, hucd,
        hgr, hrg] at h
    cases hat : c.listAttachedUserPolicies un with
    | error e =>
      rw [main_attached_error c stdin r u un ua uid ucd gr glines e hgu hru hun hua
        huid hucd hgr hrg hat] at h
      exact .inr (.inl ⟨gr, glines, e, rfl, hrg, rfl, (Option.some.inj h).symm⟩)
    | ok ap =>
      rcases hra : renderAttachedPolicies ap.attachedPolicies with _ | alines
      · simp [main, GetUserDetails, ListUserGroups, ListAttachedUserPolicies, hgu,
          hru, hun, hua, huid, hucd, hgr, hrg, hat, hra] at h
      rcases hpr : PromptUserForPolicyVersionDetails c stdin with _ | ⟨po, s2, pc⟩
      · simp [main, GetUserDetails, ListUserGroups, ListAttachedUserPolicies, hgu,
          hru, hun, hua, huid, hucd, hgr, hrg, hat, hra, hpr] at h
      cases hin : c.listUserPolicies un with
      | error e =>
        rw [main_inline_error c stdin r u un ua uid ucd gr glines ap alines po s2 pc
          e hgu hru hun hua huid hucd hgr hrg hat hra hpr hin] at h
        exact .inr (.inr (.inl ⟨gr, glines, ap, alines, po, s2, pc, e, rfl, hrg,
          rfl, hra, rfl, rfl, (Option.some.inj h).symm⟩))
      | ok ip =>
        rw [main_shape c stdin r u un ua uid ucd gr glines ap alines po s2 pc ip
          hgu hru hun hua huid hucd hgr hrg hat hra hpr hin] at h
        exact .inr (.inr (.inr ⟨gr, glines, ap, alines, po, s2, pc, ip, rfl, hrg,
          rfl, hra, rfl, rfl, (Option.some.inj h).symm⟩))

/-- With every response field present, no pointer dereference can fail:
the whole run is total. -/
lemma main_total (c : IamClient) (stdin : List String)
    (hp : ResponsesAllPresent c) : (main (.ok c) stdin).isSome := by
  obtain ⟨hu, hg, ha, hv, hpv⟩ := hp
  cases hgu : c.getUser with
  | error e => rw [main_getUser_error c stdin e hgu]; rfl
  | ok r =>
    obtain ⟨u, hru, hf1, hf2, hf3, hf4⟩ := hu r hgu
    rw [Option.isSome_iff_exists] at hf1 hf2 hf3 hf4
    obtain ⟨un, hun⟩ := hf1; obtain ⟨ua, hua⟩ := hf2
    obtain ⟨uid, huid⟩ := hf3; obtain ⟨ucd, hucd⟩ := hf4
    cases hgr : c.listGroupsForUser un with
    | error e =>
      rw [main_groups_error c stdin r u un ua uid ucd e hgu hru hun hua huid hucd
        hgr]; rfl
    | ok gr =>
      have hrg := renderGroups_isSome gr.groups (hg un gr hgr)
      rw [Option.isSome_iff_exists] at hrg
      obtain ⟨glines, hrg⟩ := hrg
      cases hat : c.listAttachedUserPolicies un with
      | error e =>
        rw [main_attached_error c stdin r u un ua uid ucd gr glines e hgu hru hun
          hua huid hucd hgr hrg hat]; rfl
      | ok ap =>
        have hra := renderAttachedPolicies_isSome ap.attachedPolicies (ha un ap hat)
        rw [Option.isSome_iff_exists] at hra
        obtain ⟨alines, hra⟩ := hra
        have hps := prompt_isSome c stdin hv hpv
        rw [Option.isSome_iff_exists] at hps
        obtain ⟨⟨po, s2, pc⟩, hpr⟩ := hps
        cases hin : c.listUserPolicies un with
        | error e =>
          rw [main_inline_error c stdin r u un ua uid ucd gr glines ap alines po s2
            pc e hgu hru hun hua huid hucd hgr hrg hat hra hpr hin]; rfl
        | ok ip =>
          rw [main_shape c stdin r u un ua uid ucd gr glines ap alines po s2 pc ip
            hgu hru hun hua huid hucd hgr hrg hat hra hpr hin]; rfl

/-! ### Percent-encoding round trip -/

lemma hexDigitValue_upperHexDigit (n : Nat) (h : n < 16) :
    hexDigitValue (upperHexDigit n) = some n := by
  interval_cases n <;> decide

lemma queryUnescapeBytes_cons_plain (b : Nat) (l : List Nat)
    (h37 : b ≠ 37) (h43 : b ≠ 43) :
    queryUnescapeBytes (b :: l) = (queryUnescapeBytes l).map (b :: ·) := by
  match l with
  | [] => simp [queryUnescapeBytes, h37, h43]
  | [a] => simp [queryUnescapeBytes, h37, h43]
  | a :: c :: rest => simp [queryUnescapeBytes, h37, h43]

lemma queryUnescapeBytes_cons_plus (l : List Nat) :
    queryUnescapeBytes (43 :: l) = (queryUnescapeBytes l).map ((32 : Nat) :: ·) := by
  match l with
  | [] => simp [queryUnescapeBytes]
  | [a] => simp [queryUnescapeBytes]
  | a :: c :: rest => simp [queryUnescapeBytes]

lemma queryUnescapeBytes_cons_percent (a c : Nat) (x y : Nat) (l : List Nat)
    (ha : hexDigitValue a = some x) (hc : hexDigitValue c = some y) :
    queryUnescapeBytes (37 :: a :: c :: l) =
      (queryUnescapeBytes l).map ((16 * x + y) :: ·) := by
  simp [queryUnescapeBytes, ha, hc]

lemma queryEscapeByte_roundtrip (b : Nat) (hb : b < 256) (l : List Nat) :
    queryUnescapeBytes (queryEscapeByte b ++ l) =
      (queryUnescapeBytes l).map (b :: ·) := by
  unfold queryEscapeByte
  by_cases h1 : isUnreservedByte b
  · rw [if_pos h1]
    have h37 : b ≠ 37 := by rintro rfl; exact absurd h1 (by decide)
    have h43 : b ≠ 43 := by rintro rfl; exact absurd h1 (by decide)
    simpa using queryUnescapeBytes_cons_plain b l h37 h43
  · rw [if_neg h1]
    by_cases h2 : b = 32
    · subst h2
      simpa using queryUnescapeBytes_cons_plus l
    · rw [if_neg h2]
      have hdiv : b / 16 < 16 := by omega
      have hmod : b % 16 < 16 := by omega
      simp only [List.cons_append, List.nil_append]
      rw [queryUnescapeBytes_cons_percent (upperHexDigit (b / 16))
        (upperHexDigit (b % 16)) (b / 16) (b % 16) l
        (hexDigitValue_upperHexDigit _ hdiv) (hexDigitValue_upperHexDigit _ hmod),
        Nat.div_add_mod]

lemma queryEscapeBytes_roundtrip (bs : List Nat) (h : ∀ b ∈ bs, b < 256) :
    queryUnescapeBytes (queryEscapeBytes bs) = some bs := by
  induction bs with
  | nil => rfl
  | cons b bs ih =>
    have hb : b < 256 := h b (by simp)
    have hrest := ih (fun x hx => h x (by simp [hx]))
    rw [queryEscapeBytes, List.flatMap_cons,
      queryEscapeByte_roundtrip b hb (bs.flatMap queryEscapeByte)]
    rw [show bs.flatMap queryEscapeByte = queryEscapeBytes bs from rfl, hrest]
    rfl

/-! ### The closing message appears in no other output chunk -/

lemma allDone_not_mem_userSection (un ua uid ucd : String) :
    "All done!\n" ∉ userSection un ua uid ucd := by
  intro h
  simp only [userSection, List.mem_cons, List.not_mem_nil, or_false] at h
  rcases h with h | h | h | h | h | h
  · exact absurd h (by decide)
  · exact concat3_ne_allDone "\tUsername: " un "\n" '\t' rfl (by decide) h.symm
  · exact concat3_ne_allDone "\tUser ARN: " ua "\n" '\t' rfl (by decide) h.symm
  · exact concat3_ne_allDone "\tUser ID: " uid "\n" '\t' rfl (by decide) h.symm
  · exact concat3_ne_allDone "\tCreated on: " ucd "\n" '\t' rfl (by decide) h.symm
  · exact absurd h (by decide)

lemma allTopLevelOk_elim (c : IamClient) (r : GetUserOutput) (u : User) (un : String)
    (hgu : c.getUser = .ok r) (hru : r.user = some u) (hun : u.userName = some un)
    (hok : AllTopLevelOk c) :
    (∃ g, c.listGroupsForUser un = .ok g) ∧
    (∃ a, c.listAttachedUserPolicies un = .ok a) ∧
    (∃ i, c.listUserPolicies un = .ok i) := by
  obtain ⟨r', u', un', hgu', hru', hun', hg, ha, hi⟩ := hok
  rw [hgu] at hgu'
  injection hgu' with hr'
  subst hr'
  rw [hru] at hru'
  injection hru' with hu'
  subst hu'
  rw [hun] at hun'
  injection hun' with hn'
  subst hn'
  exact ⟨hg, ha, hi⟩

/-- `ResponsesAllPresent` holds of the sample client. -/
lemma sampleClient_present : ResponsesAllPresent sampleClient := by
  refine ⟨?_, ?_, ?_, ?_, ?_⟩
  · intro r hr
    simp only [sampleClient] at hr
    injection hr with hr
    subst hr
    exact ⟨sampleUser, rfl, rfl, rfl, rfl, rfl⟩
  · intro un r hr
    simp only [sampleClient] at hr
    injection hr with hr
    subst hr
    intro g hg
    simp only [List.mem_singleton] at hg
    subst hg
    exact ⟨rfl, rfl, rfl, rfl⟩
  · intro un r hr
    simp only [sampleClient] at hr
    injection hr with hr
    subst hr
    intro p hp
    simp only [List.mem_singleton] at hp
    subst hp
    exact ⟨rfl, rfl⟩
  · intro a r hr
    simp only [sampleClient] at hr
    injection hr with hr
    subst hr
    intro v hv
    simp only [List.mem_singleton] at hv
    subst hv
    exact ⟨rfl, rfl, rfl⟩
  · intro a vi r hr
    simp only [sampleClient] at hr
    injection hr with hr
    subst hr
    exact ⟨sampleVersion, rfl, rfl, rfl, rfl⟩

/-! ## The claims -/

/-- C1 (as stated, refuted): with a client whose `GetUser` call fails, the
program terminates making no further call, but prints TWO failure messages
(the helper's log of the underlying error and then main's exit message),
not exactly one. -/
theorem c1_counterexample :
    (main (.ok failClient) []).map
        (fun st => ((st.out.filter isFailureMessage).length, st.calls)) =
      some (2, [ApiCall.getUser]) ∧
    (main (.ok failClient) []).map
        (fun st => (st.out.filter isFailureMessage).length) ≠ some 1 := by
  constructor
  · rfl
  · decide

/-- C1 (amended): if the initial current-user query fails, no subsequent
query is attempted (the call trace is exactly the one `GetUser` call) and
the program terminates after printing exactly two failure messages: the
helper's log of the underlying error, then main's exit message. -/
theorem c1_getUser_failure_aborts (c : IamClient) (stdin : List String)
    (e : ApiError) (h : c.getUser = .error e) :
    ∃ st, main (.ok c) stdin = some st ∧
      st.calls = [ApiCall.getUser] ∧
      st.out = introSection ++
        ["Couldn't get details for the user. Here's why: " ++ e ++ "\n",
         "Couldn't get details for the current user. Exiting...\n"] ∧
      (st.out.filter isFailureMessage).length = 2 := by
  refine ⟨_, main_getUser_error c stdin e h, rfl, rfl, ?_⟩
  have h1 : isFailureMessage
      ("Couldn't get details for the user. Here's why: " ++ e ++ "\n") = true := by
    rw [isFailureMessage_append
      ("Couldn't get details for the user. Here's why: " ++ e) "\n" 'C'
      (head?_data_append "Couldn't get details for the user. Here's why: " e 'C'
        rfl)]
    rfl
  have g1 : isFailureMessage "Getting details for the current user...\n" = false := rfl
  have g2 : isFailureMessage (MAJOR_SEPARATOR ++ "\n") = false := rfl
  have g3 : isFailureMessage
      "Couldn't get details for the current user. Exiting...\n" = true := rfl
  simp [introSection, List.filter_cons, h1, g1, g2, g3]

/-- Witness for C1 (amended): the failing client exercises the theorem. -/
theorem c1_witness :
    failClient.getUser = .error "AccessDenied" ∧
    ∃ st, main (.ok failClient) [] = some st ∧
      st.calls = [ApiCall.getUser] ∧
      st.out = introSection ++
        ["Couldn't get details for the user. Here's why: " ++ "AccessDenied" ++ "\n",
         "Couldn't get details for the current user. Exiting...\n"] ∧
      (st.out.filter isFailureMessage).length = 2 :=
  ⟨rfl, c1_getUser_failure_aborts failClient [] "AccessDenied" rfl⟩

/-- C3: whenever the token read at the interactive prompt differs from
`y`, the prompt routine emits only the question, reads no further token
(the remaining stdin is untouched), makes no API call, and produces no
version-related output. -/
theorem c3_prompt_not_y_skips (client : IamClient) (input : String)
    (rest : List String) (h : input ≠ "y") :
    PromptUserForPolicyVersionDetails client (input :: rest) =
      some (["Do you want the details of any policy's version? (y/n): "],
        rest, []) :=
  prompt_skip client (input :: rest) rest input rfl h

/-- Witness for C3 at the concrete answer `n`. -/
theorem c3_witness :
    ("n" : String) ≠ "y" ∧
    PromptUserForPolicyVersionDetails sampleClient ["n"] =
      some (["Do you want the details of any policy's version? (y/n): "],
        [], []) :=
  ⟨by decide, c3_prompt_not_y_skips sampleClient "n" [] (by decide)⟩

/-- C4: percent-encoding a byte sequence with `url.QueryEscape` and then
applying the program's percent-decoding step (`url.QueryUnescape`) yields
the original bytes, so for any JSON text the decoded document equals the
original text. -/
theorem c4_encode_decode_roundtrip (bs : List Nat) (h : ∀ b ∈ bs, b < 256) :
    queryUnescapeBytes (queryEscapeBytes bs) = some bs :=
  queryEscapeBytes_roundtrip bs h

/-- Witness for C4 on the bytes of a small JSON fragment
(`"hi there": 1`, with quote, space and colon bytes). -/
theorem c4_witness :
    (∀ b ∈ ([34, 104, 105, 32, 116, 104, 101, 114, 101, 34, 58, 32, 49] :
      List Nat), b < 256) ∧
    queryUnescapeBytes (queryEscapeBytes
        [34, 104, 105, 32, 116, 104, 101, 114, 101, 34, 58, 32, 49]) =
      some [34, 104, 105, 32, 116, 104, 101, 114, 101, 34, 58, 32, 49] :=
  ⟨by decide, c4_encode_decode_roundtrip _ (by decide)⟩

/-- C5: for each list that comes back empty — the groups list, the
attached-policies list, or the inline-policy-names list — the
corresponding report section consists of nothing but its header and
separator lines, with no item lines, whatever the other two lists hold
and whatever the interactive branch does. -/
theorem c5_empty_list_section_header_only :
    (∀ (c : IamClient) (stdin : List String) (r : GetUserOutput) (u : User)
       (un ua uid ucd : String) (ap : ListAttachedUserPoliciesOutput)
       (alines po s2 : List String) (pc : List ApiCall)
       (ip : ListUserPoliciesOutput),
      c.getUser = .ok r → r.user = some u → u.userName = some un →
      u.arn = some ua → u.userId = some uid → u.createDate = some ucd →
      c.listGroupsForUser un = .ok ⟨[]⟩ →
      c.listAttachedUserPolicies un = .ok ap →
      renderAttachedPolicies ap.attachedPolicies = some alines →
      PromptUserForPolicyVersionDetails c stdin = some (po, s2, pc) →
      c.listUserPolicies un = .ok ip →
      main (.ok c) stdin = some ⟨s2,
        introSection ++ userSection un ua uid ucd ++ groupsHeader ++
          (attachedHeader ++ alines) ++ po ++
          (inlineHeader ++ renderInlinePolicies ip.policyNames) ++ ["All done!\n"],
        [.getUser, .listGroupsForUser un, .listAttachedUserPolicies un] ++ pc ++
          [.listUserPolicies un]⟩) ∧
    (∀ (c : IamClient) (stdin : List String) (r : GetUserOutput) (u : User)
       (un ua uid ucd : String) (gr : ListGroupsForUserOutput)
       (glines po s2 : List String) (pc : List ApiCall)
       (ip : ListUserPoliciesOutput),
      c.getUser = .ok r → r.user = some u → u.userName = some un →
      u.arn = some ua → u.userId = some uid → u.createDate = some ucd →
      c.listGroupsForUser un = .ok gr → renderGroups gr.groups = some glines →
      c.listAttachedUserPolicies un = .ok ⟨[]⟩ →
      PromptUserForPolicyVersionDetails c stdin = some (po, s2, pc) →
      c.listUserPolicies un = .ok ip →
      main (.ok c) stdin = some ⟨s2,
        introSection ++ userSection un ua uid ucd ++
          (groupsHeader ++ glines) ++ attachedHeader ++ po ++
          (inlineHeader ++ renderInlinePolicies ip.policyNames) ++ ["All done!\n"],
        [.getUser, .listGroupsForUser un, .listAttachedUserPolicies un] ++ pc ++
          [.listUserPolicies un]⟩) ∧
    (∀ (c : IamClient) (stdin : List String) (r : GetUserOutput) (u : User)
       (un ua uid ucd : String) (gr : ListGroupsForUserOutput)
       (glines : List String) (ap : ListAttachedUserPoliciesOutput)
       (alines po s2 : List String) (pc : List ApiCall),
      c.getUser = .ok r → r.user = some u → u.userName = some un →
      u.arn = some ua → u.userId = some uid → u.createDate = some ucd →
      c.listGroupsForUser un = .ok gr → renderGroups gr.groups = some glines →
      c.listAttachedUserPolicies un = .ok ap →
      renderAttachedPolicies ap.attachedPolicies = some alines →
      PromptUserForPolicyVersionDetails c stdin = some (po, s2, pc) →
      c.listUserPolicies un = .ok ⟨[]⟩ →
      main (.ok c) stdin = some ⟨s2,
        introSection ++ userSection un ua uid ucd ++
          (groupsHeader ++ glines) ++ (attachedHeader ++ alines) ++ po ++
          inlineHeader ++ ["All done!\n"],
        [.getUser, .listGroupsForUser un, .listAttachedUserPolicies un] ++ pc ++
          [.listUserPolicies un]⟩) := by
  refine ⟨?_, ?_, ?_⟩
  · intro c stdin r u un ua uid ucd ap alines po s2 pc ip
      h1 h2 h3 h4 h5 h6 h7 h9 h10 h11 h12
    have hm := main_shape c stdin r u un ua uid ucd ⟨[]⟩ [] ap alines po s2 pc ip
      h1 h2 h3 h4 h5 h6 h7 rfl h9 h10 h11 h12
    simpa using hm
  · intro c stdin r u un ua uid ucd gr glines po s2 pc ip
      h1 h2 h3 h4 h5 h6 h7 h8 h9 h11 h12
    have hm := main_shape c stdin r u un ua uid ucd gr glines ⟨[]⟩ [] po s2 pc ip
      h1 h2 h3 h4 h5 h6 h7 h8 h9 rfl h11 h12
    simpa using hm
  · intro c stdin r u un ua uid ucd gr glines ap alines po s2 pc
      h1 h2 h3 h4 h5 h6 h7 h8 h9 h10 h11 h12
    have hm := main_shape c stdin r u un ua uid ucd gr glines ap alines po s2 pc
      ⟨[]⟩ h1 h2 h3 h4 h5 h6 h7 h8 h9 h10 h11 h12
    simpa [renderInlinePolicies] using hm

/-- Witness for C5: three clients, each with exactly one list empty and
the other two non-empty, all answering `n` at the prompt. -/
theorem c5_witness :
    (emptyGroupsClient.listGroupsForUser "alice" = .ok ⟨[]⟩ ∧
     main (.ok emptyGroupsClient) ["n"] = some ⟨[],
       introSection ++ userSection "alice" "arn:aws:iam::123456789012:user/alice"
           "AIDAALICE" "2020-01-01 00:00:00 +0000 UTC" ++ groupsHeader ++
         (attachedHeader ++
           ["\tPolicy name: ReadOnlyAccess\n",
            "\tPolicy ARN: arn:aws:iam::aws:policy/ReadOnlyAccess\n",
            MINOR_SEPARATOR ++ "\n"]) ++
         ["Do you want the details of any policy's version? (y/n): "] ++
         (inlineHeader ++ renderInlinePolicies ["inlinePolicy1"]) ++
         ["All done!\n"],
       [.getUser, .listGroupsForUser "alice", .listAttachedUserPolicies "alice"] ++
         [] ++ [.listUserPolicies "alice"]⟩) ∧
    (emptyAttachedClient.listAttachedUserPolicies "alice" = .ok ⟨[]⟩ ∧
     main (.ok emptyAttachedClient) ["n"] = some ⟨[],
       introSection ++ userSection "alice" "arn:aws:iam::123456789012:user/alice"
           "AIDAALICE" "2020-01-01 00:00:00 +0000 UTC" ++
         (groupsHeader ++
           ["\tGroup name: devs\n",
            "\tGroup ARN: arn:aws:iam::123456789012:group/devs\n",
            "\tGroup ID: AGPADEVS\n",
            "\tCreated on: 2020-01-02 00:00:00 +0000 UTC\n",
            MINOR_SEPARATOR ++ "\n"]) ++ attachedHeader ++
         ["Do you want the details of any policy's version? (y/n): "] ++
         (inlineHeader ++ renderInlinePolicies ["inlinePolicy1"]) ++
         ["All done!\n"],
       [.getUser, .listGroupsForUser "alice", .listAttachedUserPolicies "alice"] ++
         [] ++ [.listUserPolicies "alice"]⟩) ∧
    (emptyInlineClient.listUserPolicies "alice" = .ok ⟨[]⟩ ∧
     main (.ok emptyInlineClient) ["n"] = some ⟨[],
       introSection ++ userSection "alice" "arn:aws:iam::123456789012:user/alice"
           "AIDAALICE" "2020-01-01 00:00:00 +0000 UTC" ++
         (groupsHeader ++
           ["\tGroup name: devs\n",
            "\tGroup ARN: arn:aws:iam::123456789012:group/devs\n",
            "\tGroup ID: AGPADEVS\n",
            "\tCreated on: 2020-01-02 00:00:00 +0000 UTC\n",
            MINOR_SEPARATOR ++ "\n"]) ++
         (attachedHeader ++
           ["\tPolicy name: ReadOnlyAccess\n",
            "\tPolicy ARN: arn:aws:iam::aws:policy/ReadOnlyAccess\n",
            MINOR_SEPARATOR ++ "\n"]) ++
         ["Do you want the details of any policy's version? (y/n): "] ++
         inlineHeader ++ ["All done!\n"],
       [.getUser, .listGroupsForUser "alice", .listAttachedUserPolicies "alice"] ++
         [] ++ [.listUserPolicies "alice"]⟩) :=
  ⟨⟨rfl, c5_empty_list_section_header_only.1 emptyGroupsClient ["n"]
     ⟨some sampleUser⟩ sampleUser "alice" "arn:aws:iam::123456789012:user/alice"
     "AIDAALICE" "2020-01-01 00:00:00 +0000 UTC" ⟨[samplePolicy]⟩
     ["\tPolicy name: ReadOnlyAccess\n",
      "\tPolicy ARN: arn:aws:iam::aws:policy/ReadOnlyAccess\n",
      MINOR_SEPARATOR ++ "\n"]
     ["Do you want the details of any policy's version? (y/n): "] [] []
     ⟨["inlinePolicy1"]⟩ rfl rfl rfl rfl rfl rfl rfl rfl rfl rfl rfl⟩,
   ⟨rfl, c5_empty_list_section_header_only.2.1 emptyAttachedClient ["n"]
     ⟨some sampleUser⟩ sampleUser "alice" "arn:aws:iam::123456789012:user/alice"
     "AIDAALICE" "2020-01-01 00:00:00 +0000 UTC" ⟨[sampleGroup]⟩
     ["\tGroup name: devs\n",
      "\tGroup ARN: arn:aws:iam::123456789012:group/devs\n",
      "\tGroup ID: AGPADEVS\n",
      "\tCreated on: 2020-01-02 00:00:00 +0000 UTC\n",
      MINOR_SEPARATOR ++ "\n"]
     ["Do you want the details of any policy's version? (y/n): "] [] []
     ⟨["inlinePolicy1"]⟩ rfl rfl rfl rfl rfl rfl rfl rfl rfl rfl rfl⟩,
   ⟨rfl, c5_empty_list_section_header_only.2.2 emptyInlineClient ["n"]
     ⟨some sampleUser⟩ sampleUser "alice" "arn:aws:iam::123456789012:user/alice"
     "AIDAALICE" "2020-01-01 00:00:00 +0000 UTC" ⟨[sampleGroup]⟩
     ["\tGroup name: devs\n",
      "\tGroup ARN: arn:aws:iam::123456789012:group/devs\n",
      "\tGroup ID: AGPADEVS\n",
      "\tCreated on: 2020-01-02 00:00:00 +0000 UTC\n",
      MINOR_SEPARATOR ++ "\n"]
     ⟨[samplePolicy]⟩
     ["\tPolicy name: ReadOnlyAccess\n",
      "\tPolicy ARN: arn:aws:iam::aws:policy/ReadOnlyAccess\n",
      MINOR_SEPARATOR ++ "\n"]
     ["Do you want the details of any policy's version? (y/n): "] [] []
     rfl rfl rfl rfl rfl rfl rfl rfl rfl rfl rfl rfl⟩⟩

/-- C6: on a successful run every printed field is exactly the
corresponding response field, spliced verbatim into the fixed output
template: the user's four fields, each group's four fields, each attached
policy's two fields and each inline policy name. -/
theorem c6_printed_fields_exact (c : IamClient) (stdin rest : List String)
    (input : String) (r : GetUserOutput) (u : User) (un ua uid ucd : String)
    (gds : List GroupData) (ads : List AttachedPolicyData) (ips : List String)
    (h1 : c.getUser = .ok r) (h2 : r.user = some u) (h3 : u.userName = some un)
    (h4 : u.arn = some ua) (h5 : u.userId = some uid) (h6 : u.createDate = some ucd)
    (h7 : c.listGroupsForUser un = .ok ⟨gds.map GroupData.toGroup⟩)
    (h9 : c.listAttachedUserPolicies un = .ok ⟨ads.map AttachedPolicyData.toPolicy⟩)
    (h12 : c.listUserPolicies un = .ok ⟨ips⟩)
    (hs : scan1 stdin = (input, rest)) (hy : input ≠ "y") :
    main (.ok c) stdin = some ⟨rest,
      introSection ++
      ["User details:\n",
       "\tUsername: " ++ un ++ "\n",
       "\tUser ARN: " ++ ua ++ "\n",
       "\tUser ID: " ++ uid ++ "\n",
       "\tCreated on: " ++ ucd ++ "\n",
       MAJOR_SEPARATOR ++ "\n"] ++
      groupsHeader ++
      (gds.flatMap fun d =>
        ["\tGroup name: " ++ d.groupName ++ "\n",
         "\tGroup ARN: " ++ d.arn ++ "\n",
         "\tGroup ID: " ++ d.groupId ++ "\n",
         "\tCreated on: " ++ d.createDate ++ "\n",
         MINOR_SEPARATOR ++ "\n"]) ++
      attachedHeader ++
      (ads.flatMap fun d =>
        ["\tPolicy name: " ++ d.policyName ++ "\n",
         "\tPolicy ARN: " ++ d.policyArn ++ "\n",
         MINOR_SEPARATOR ++ "\n"]) ++
      ["Do you want the details of any policy's version? (y/n): "] ++
      inlineHeader ++
      (ips.flatMap fun p =>
        ["\tPolicy name: " ++ p ++ "\n", MINOR_SEPARATOR ++ "\n"]) ++
      ["All done!\n"],
      [.getUser, .listGroupsForUser un, .listAttachedUserPolicies un,
       .listUserPolicies un]⟩ := by
  have hpr := prompt_skip c stdin rest input hs hy
  have hm := main_shape c stdin r u un ua uid ucd
    ⟨gds.map GroupData.toGroup⟩ _ ⟨ads.map AttachedPolicyData.toPolicy⟩ _
    ["Do you want the details of any policy's version? (y/n): "] rest [] ⟨ips⟩
    h1 h2 h3 h4 h5 h6 h7 (renderGroups_toGroup gds) h9
    (renderAttachedPolicies_toPolicy ads) hpr h12
  simpa [renderInlinePolicies, userSection] using hm

/-- Witness for C6 on the sample data. -/
theorem c6_witness :
    sampleClient.listGroupsForUser "alice" =
      .ok ⟨[GroupData.toGroup ⟨"devs", "arn:aws:iam::123456789012:group/devs",
        "AGPADEVS", "2020-01-02 00:00:00 +0000 UTC"⟩]⟩ ∧
    main (.ok sampleClient) ["n"] = some ⟨[],
      introSection ++
      ["User details:\n",
       "\tUsername: " ++ "alice" ++ "\n",
       "\tUser ARN: " ++ "arn:aws:iam::123456789012:user/alice" ++ "\n",
       "\tUser ID: " ++ "AIDAALICE" ++ "\n",
       "\tCreated on: " ++ "2020-01-01 00:00:00 +0000 UTC" ++ "\n",
       MAJOR_SEPARATOR ++ "\n"] ++
      groupsHeader ++
      (([⟨"devs", "arn:aws:iam::123456789012:group/devs", "AGPADEVS",
          "2020-01-02 00:00:00 +0000 UTC"⟩] : List GroupData).flatMap fun d =>
        ["\tGroup name: " ++ d.groupName ++ "\n",
         "\tGroup ARN: " ++ d.arn ++ "\n",
         "\tGroup ID: " ++ d.groupId ++ "\n",
         "\tCreated on: " ++ d.createDate ++ "\n",
         MINOR_SEPARATOR ++ "\n"]) ++
      attachedHeader ++
      (([⟨"ReadOnlyAccess", "arn:aws:iam::aws:policy/ReadOnlyAccess"⟩] :
          List AttachedPolicyData).flatMap fun d =>
        ["\tPolicy name: " ++ d.policyName ++ "\n",
         "\tPolicy ARN: " ++ d.policyArn ++ "\n",
         MINOR_SEPARATOR ++ "\n"]) ++
      ["Do you want the details of any policy's version? (y/n): "] ++
      inlineHeader ++
      ((["inlinePolicy1"] : List String).flatMap fun p =>
        ["\tPolicy name: " ++ p ++ "\n", MINOR_SEPARATOR ++ "\n"]) ++
      ["All done!\n"],
      [.getUser, .listGroupsForUser "alice", .listAttachedUserPolicies "alice",
       .listUserPolicies "alice"]⟩ :=
  ⟨rfl, c6_printed_fields_exact sampleClient ["n"] [] "n" ⟨some sampleUser⟩
    sampleUser "alice" "arn:aws:iam::123456789012:user/alice" "AIDAALICE"
    "2020-01-01 00:00:00 +0000 UTC"
    [⟨"devs", "arn:aws:iam::123456789012:group/devs", "AGPADEVS",
      "2020-01-02 00:00:00 +0000 UTC"⟩]
    [⟨"ReadOnlyAccess", "arn:aws:iam::aws:policy/ReadOnlyAccess"⟩]
    ["inlinePolicy1"]
    rfl rfl rfl rfl rfl rfl rfl rfl rfl rfl (by decide)⟩

/-- C7: on every completed run with all top-level queries succeeding, the
report sections appear in the fixed order: user identity, groups,
attached managed policies, the (optional) interactive policy-version
output, inline policy names, and the closing message last. -/
theorem c7_section_order (c : IamClient) (stdin : List String) (r : GetUserOutput)
    (u : User) (un ua uid ucd : String) (gr : ListGroupsForUserOutput)
    (glines : List String) (ap : ListAttachedUserPoliciesOutput)
    (alines po : List String) (s2 : List String) (pc : List ApiCall)
    (ip : ListUserPoliciesOutput)
    (h1 : c.getUser = .ok r) (h2 : r.user = some u) (h3 : u.userName = some un)
    (h4 : u.arn = some ua) (h5 : u.userId = some uid) (h6 : u.createDate = some ucd)
    (h7 : c.listGroupsForUser un = .ok gr) (h8 : renderGroups gr.groups = some glines)
    (h9 : c.listAttachedUserPolicies un = .ok ap)
    (h10 : renderAttachedPolicies ap.attachedPolicies = some alines)
    (h11 : PromptUserForPolicyVersionDetails c stdin = some (po, s2, pc))
    (h12 : c.listUserPolicies un = .ok ip) :
    main (.ok c) stdin = some ⟨s2,
      (introSection ++ userSection un ua uid ucd) ++
        (groupsHeader ++ glines) ++
        (attachedHeader ++ alines) ++
        po ++
        (inlineHeader ++ renderInlinePolicies ip.policyNames) ++
        ["All done!\n"],
      [.getUser, .listGroupsForUser un, .listAttachedUserPolicies un] ++ pc ++
        [.listUserPolicies un]⟩ := by
  have hm := main_shape c stdin r u un ua uid ucd gr glines ap alines po s2 pc ip
    h1 h2 h3 h4 h5 h6 h7 h8 h9 h10 h11 h12
  simpa using hm

/-- Witness for C7: the sample client with the interactive branch taken
and succeeding. -/
theorem c7_witness :
    PromptUserForPolicyVersionDetails sampleClient
        ["y", "arn:aws:iam::aws:policy/ReadOnlyAccess", "v1"] =
      some (["Do you want the details of any policy's version? (y/n): ",
             "Enter the ARN of the policy: ", "Available versions: \n",
             "\tVersion ID: v1\n", "\tCreated on: 2020-01-03 00:00:00 +0000 UTC\n",
             "\n", "Enter the version ID to retrieve: ",
             "Getting details for version  v1\n",
             MAJOR_SEPARATOR ++ "\n", "Policy version details:\n",
             "\tVersion ID: v1\n", "\tCreated on: 2020-01-03 00:00:00 +0000 UTC\n",
             "\tDocument: \n\"policy doc\"\n", MAJOR_SEPARATOR ++ "\n"], [],
            [.listPolicyVersions "arn:aws:iam::aws:policy/ReadOnlyAccess",
             .getPolicyVersion "arn:aws:iam::aws:policy/ReadOnlyAccess" "v1"]) ∧
    main (.ok sampleClient) ["y", "arn:aws:iam::aws:policy/ReadOnlyAccess", "v1"] =
      some ⟨[],
        (introSection ++ userSection "alice"
            "arn:aws:iam::123456789012:user/alice" "AIDAALICE"
            "2020-01-01 00:00:00 +0000 UTC") ++
          (groupsHeader ++
            ["\tGroup name: devs\n",
             "\tGroup ARN: arn:aws:iam::123456789012:group/devs\n",
             "\tGroup ID: AGPADEVS\n",
             "\tCreated on: 2020-01-02 00:00:00 +0000 UTC\n",
             MINOR_SEPARATOR ++ "\n"]) ++
          (attachedHeader ++
            ["\tPolicy name: ReadOnlyAccess\n",
             "\tPolicy ARN: arn:aws:iam::aws:policy/ReadOnlyAccess\n",
             MINOR_SEPARATOR ++ "\n"]) ++
          ["Do you want the details of any policy's version? (y/n): ",
           "Enter the ARN of the policy: ", "Available versions: \n",
           "\tVersion ID: v1\n", "\tCreated on: 2020-01-03 00:00:00 +0000 UTC\n",
           "\n", "Enter the version ID to retrieve: ",
           "Getting details for version  v1\n",
           MAJOR_SEPARATOR ++ "\n", "Policy version details:\n",
           "\tVersion ID: v1\n", "\tCreated on: 2020-01-03 00:00:00 +0000 UTC\n",
           "\tDocument: \n\"policy doc\"\n", MAJOR_SEPARATOR ++ "\n"] ++
          (inlineHeader ++
            ["\tPolicy name: inlinePolicy1\n", MINOR_SEPARATOR ++ "\n"]) ++
          ["All done!\n"],
        [.getUser, .listGroupsForUser "alice", .listAttachedUserPolicies "alice"] ++
          [.listPolicyVersions "arn:aws:iam::aws:policy/ReadOnlyAccess",
           .getPolicyVersion "arn:aws:iam::aws:policy/ReadOnlyAccess" "v1"] ++
          [.listUserPolicies "alice"]⟩ :=
  ⟨by decide,
   c7_section_order sampleClient
     ["y", "arn:aws:iam::aws:policy/ReadOnlyAccess", "v1"]
     ⟨some sampleUser⟩ sampleUser "alice" "arn:aws:iam::123456789012:user/alice"
     "AIDAALICE" "2020-01-01 00:00:00 +0000 UTC"
     ⟨[sampleGroup]⟩ _ ⟨[samplePolicy]⟩ _ _ _ _ ⟨["inlinePolicy1"]⟩
     rfl rfl rfl rfl rfl rfl rfl rfl rfl rfl (by decide) rfl⟩

/-- C2: whatever fails inside the interactive branch — the
`ListPolicyVersions` call, the `GetPolicyVersion` call, or the
percent-decoding of the document — only that branch is aborted: control
returns to `main`, which still performs the inline-policy listing (the
`ListUserPolicies` call appears in the trace) and prints the closing
message last. -/
theorem c2_interactive_failure_nonfatal (c : IamClient) (stdin s1 s2 : List String)
    (arn : String) (r : GetUserOutput) (u : User) (un ua uid ucd : String)
    (gr : ListGroupsForUserOutput) (glines : List String)
    (ap : ListAttachedUserPoliciesOutput) (alines : List String)
    (ip : ListUserPoliciesOutput)
    (h1 : c.getUser = .ok r) (h2 : r.user = some u) (h3 : u.userName = some un)
    (h4 : u.arn = some ua) (h5 : u.userId = some uid) (h6 : u.createDate = some ucd)
    (h7 : c.listGroupsForUser un = .ok gr) (h8 : renderGroups gr.groups = some glines)
    (h9 : c.listAttachedUserPolicies un = .ok ap)
    (h10 : renderAttachedPolicies ap.attachedPolicies = some alines)
    (h12 : c.listUserPolicies un = .ok ip)
    (hs0 : scan1 stdin = ("y", s1)) (hs1 : scan1 s1 = (arn, s2))
    (hfail :
      (∃ e, c.listPolicyVersions arn = .error e) ∨
      (∃ vs vlines vid s3 e, c.listPolicyVersions arn = .ok vs ∧
        renderVersions vs.versions = some vlines ∧ scan1 s2 = (vid, s3) ∧
        c.getPolicyVersion arn vid = .error e) ∨
      (∃ vs vlines vid s3 rr pv vid2 vcd doc,
        c.listPolicyVersions arn = .ok vs ∧
        renderVersions vs.versions = some vlines ∧ scan1 s2 = (vid, s3) ∧
        c.getPolicyVersion arn vid = .ok rr ∧ rr.policyVersion = some pv ∧
        pv.versionId = some vid2 ∧ pv.createDate = some vcd ∧
        pv.document = some doc ∧ queryUnescape doc = none)) :
    ∃ st, main (.ok c) stdin = some st ∧
      ApiCall.listUserPolicies un ∈ st.calls ∧
      st.out.getLast? = some "All done!\n" := by
  have step : ∃ po sX pc,
      PromptUserForPolicyVersionDetails c stdin = some (po, sX, pc) := by
    rcases hfail with ⟨e, he⟩ |
      ⟨vs, vlines, vid, s3, e, hv, hr, hs2, he⟩ |
      ⟨vs, vlines, vid, s3, rr, pv, vid2, vcd, doc, hv, hr, hs2, he, hpv, hvid,
        hvcd, hdoc, hq⟩
    · exact ⟨_, _, _, prompt_versions_error c stdin s1 s2 arn e hs0 hs1 he⟩
    · exact ⟨_, _, _, prompt_get_error c stdin s1 s2 s3 arn vid e vs vlines
        hs0 hs1 hv hr hs2 he⟩
    · exact ⟨_, _, _, prompt_decode_error c stdin s1 s2 s3 arn vid vid2 vcd doc vs
        vlines rr pv hs0 hs1 hv hr hs2 he hpv hvid hvcd hdoc hq⟩
  obtain ⟨po, sX, pc, hpr⟩ := step
  refine ⟨_, main_shape c stdin r u un ua uid ucd gr glines ap alines po sX pc ip
    h1 h2 h3 h4 h5 h6 h7 h8 h9 h10 hpr h12, ?_, ?_⟩
  · simp
  · exact List.getLast?_concat _

/-- Witness for C2: the client whose `ListPolicyVersions` call fails,
with the interactive branch taken. -/
theorem c2_witness :
    (∃ e, failVersionsClient.listPolicyVersions
      "arn:aws:iam::aws:policy/ReadOnlyAccess" = .error e) ∧
    ∃ st, main (.ok failVersionsClient)
        ["y", "arn:aws:iam::aws:policy/ReadOnlyAccess", "v1"] = some st ∧
      ApiCall.listUserPolicies "alice" ∈ st.calls ∧
      st.out.getLast? = some "All done!\n" :=
  ⟨⟨"NoSuchEntity", rfl⟩,
   c2_interactive_failure_nonfatal failVersionsClient
     ["y", "arn:aws:iam::aws:policy/ReadOnlyAccess", "v1"]
     ["arn:aws:iam::aws:policy/ReadOnlyAccess", "v1"] ["v1"]
     "arn:aws:iam::aws:policy/ReadOnlyAccess"
     ⟨some sampleUser⟩ sampleUser "alice" "arn:aws:iam::123456789012:user/alice"
     "AIDAALICE" "2020-01-01 00:00:00 +0000 UTC"
     ⟨[sampleGroup]⟩ _ ⟨[samplePolicy]⟩ _ ⟨["inlinePolicy1"]⟩
     rfl rfl rfl rfl rfl rfl rfl rfl rfl rfl rfl rfl rfl
     (.inl ⟨"NoSuchEntity", rfl⟩)⟩

/-- C8: under the precondition that every field of every response record
is present, every pointer dereference succeeds — the run of `main` is
total (never the panic outcome `none`) — while without that precondition
the program does not defend itself: a response with nil user fields makes
the run panic. -/
theorem c8_nonnull_precondition_total (c : IamClient) (stdin : List String)
    (hp : ResponsesAllPresent c) :
    (main (.ok c) stdin).isSome ∧ main (.ok nilFieldClient) [] = none :=
  ⟨main_total c stdin hp, rfl⟩

/-- Witness for C8: the fully populated sample client. -/
theorem c8_witness :
    ResponsesAllPresent sampleClient ∧
    ((main (.ok sampleClient) []).isSome ∧ main (.ok nilFieldClient) [] = none) :=
  ⟨sampleClient_present,
   c8_nonnull_precondition_total sampleClient [] sampleClient_present⟩

/-- C9: on every completed run, each per-user list query is invoked with
exactly the username carried by the initial `GetUser` response; no call
in the trace carries any other username. -/
theorem c9_username_never_altered (c : IamClient) (stdin : List String)
    (st : RunState) (r : GetUserOutput) (u : User) (un : String)
    (hgu : c.getUser = .ok r) (hru : r.user = some u) (hun : u.userName = some un)
    (h : main (.ok c) stdin = some st) :
    ∀ call ∈ st.calls, ∀ x, usernameArg call = some x → x = un := by
  obtain ⟨u', un', ua, uid, ucd, hru', hun', _hua, _huid, _hucd, hcases⟩ :=
    main_cases c stdin st r hgu h
  rw [hru] at hru'
  injection hru' with h'
  subst h'
  rw [hun] at hun'
  injection hun' with h''
  subst h''
  rcases hcases with ⟨e, hgr, rfl⟩ | ⟨gr, glines, e, hgr, hrg, hat, rfl⟩ |
    ⟨gr, glines, ap, alines, po, s2, pc, e, hgr, hrg, hat, hra, hpr, hin, rfl⟩ |
    ⟨gr, glines, ap, alines, po, s2, pc, ip, hgr, hrg, hat, hra, hpr, hin, rfl⟩
  · intro call hc x hx
    simp only [List.mem_cons, List.not_mem_nil, or_false] at hc
    rcases hc with rfl | rfl
    · simp [usernameArg] at hx
    · simp only [usernameArg, Option.some.injEq] at hx
      exact hx.symm
  · intro call hc x hx
    simp only [List.mem_cons, List.not_mem_nil, or_false] at hc
    rcases hc with rfl | rfl | rfl
    · simp [usernameArg] at hx
    · simp only [usernameArg, Option.some.injEq] at hx
      exact hx.symm
    · simp only [usernameArg, Option.some.injEq] at hx
      exact hx.symm
  · intro call hc x hx
    simp only [List.mem_append, List.mem_cons, List.not_mem_nil, or_false] at hc
    rcases hc with ((rfl | rfl | rfl) | hc) | rfl
    · simp [usernameArg] at hx
    · simp only [usernameArg, Option.some.injEq] at hx
      exact hx.symm
    · simp only [usernameArg, Option.some.injEq] at hx
      exact hx.symm
    · rw [(prompt_invariants c stdin po s2 pc hpr).1 call hc] at hx
      exact absurd hx (by simp)
    · simp only [usernameArg, Option.some.injEq] at hx
      exact hx.symm
  · intro call hc x hx
    simp only [List.mem_append, List.mem_cons, List.not_mem_nil, or_false] at hc
    rcases hc with ((rfl | rfl | rfl) | hc) | rfl
    · simp [usernameArg] at hx
    · simp only [usernameArg, Option.some.injEq] at hx
      exact hx.symm
    · simp only [usernameArg, Option.some.injEq] at hx
      exact hx.symm
    · rw [(prompt_invariants c stdin po s2 pc hpr).1 call hc] at hx
      exact absurd hx (by simp)
    · simp only [usernameArg, Option.some.injEq] at hx
      exact hx.symm

/-- Witness for C9 on the declined-prompt sample run. -/
theorem c9_witness :
    main (.ok sampleClient) ["n"] = some sampleRunN ∧
    ∀ call ∈ sampleRunN.calls, ∀ x, usernameArg call = some x → x = "alice" :=
  ⟨rfl, c9_username_never_altered sampleClient ["n"] sampleRunN ⟨some sampleUser⟩
    sampleUser "alice" rfl rfl rfl rfl⟩

/-- C10: on every completed run, the closing message is printed exactly
when all four top-level queries succeed; the interactive branch's outcome
never decides it. -/
theorem c10_allDone_iff_topLevelOk (c : IamClient) (stdin : List String)
    (st : RunState) (h : main (.ok c) stdin = some st) :
    "All done!\n" ∈ st.out ↔ AllTopLevelOk c := by
  cases hgu : c.getUser with
  | error e =>
    rw [main_getUser_error c stdin e hgu] at h
    have hst := (Option.some.inj h).symm
    subst hst
    constructor
    · intro hmem
      exfalso
      simp only [introSection, List.cons_append, List.nil_append, List.mem_cons,
        List.not_mem_nil, or_false] at hmem
      rcases hmem with h1 | h1 | h1 | h1
      · exact absurd h1 (by decide)
      · exact absurd h1 (by decide)
      · exact concat3_ne_allDone "Couldn't get details for the user. Here's why: "
          e "\n" 'C' rfl (by decide) h1.symm
      · exact absurd h1 (by decide)
    · intro hok
      exfalso
      obtain ⟨r', u', un', hgu', _⟩ := hok
      rw [hgu] at hgu'
      exact absurd hgu' (by simp)
  | ok r =>
    obtain ⟨u, un, ua, uid, ucd, hru, hun, hua, huid, hucd, hcases⟩ :=
      main_cases c stdin st r hgu h
    rcases hcases with ⟨e, hgr, rfl⟩ | ⟨gr, glines, e, hgr, hrg, hat, rfl⟩ |
      ⟨gr, glines, ap, alines, po, s2, pc, e, hgr, hrg, hat, hra, hpr, hin, rfl⟩ |
      ⟨gr, glines, ap, alines, po, s2, pc, ip, hgr, hrg, hat, hra, hpr, hin, rfl⟩
    · constructor
      · intro hmem
        exfalso
        simp only [List.mem_append] at hmem
        rcases hmem with ((hm | hm) | hm) | hm
        · exact absurd hm (by decide)
        · exact allDone_not_mem_userSection un ua uid ucd hm
        · exact absurd hm (by decide)
        · simp only [List.mem_cons, List.not_mem_nil, or_false] at hm
          rcases hm with hm | hm
          · exact concat3_ne_allDone
              "Couldn't get the groups for the user. Here's why: " e "\n" 'C' rfl
              (by decide) hm.symm
          · exact absurd hm (by decide)
      · intro hok
        exfalso
        obtain ⟨⟨g, hg⟩, _, _⟩ := allTopLevelOk_elim c r u un hgu hru hun hok
        rw [hg] at hgr
        exact absurd hgr (by simp)
    · constructor
      · intro hmem
        exfalso
        simp only [List.mem_append] at hmem
        rcases hmem with ((((hm | hm) | hm) | hm) | hm) | hm
        · exact absurd hm (by decide)
        · exact allDone_not_mem_userSection un ua uid ucd hm
        · exact absurd hm (by decide)
        · exact renderGroups_ne_allDone gr.groups glines hrg _ hm rfl
        · exact absurd hm (by decide)
        · simp only [List.mem_cons, List.not_mem_nil, or_false] at hm
          rcases hm with hm | hm
          · exact concat3_ne_allDone
              "Couldn't get the policies attached to the user. Here's why: " e "\n"
              'C' rfl (by decide) hm.symm
          · exact absurd hm (by decide)
      · intro hok
        exfalso
        obtain ⟨_, ⟨a, ha⟩, _⟩ := allTopLevelOk_elim c r u un hgu hru hun hok
        rw [ha] at hat
        exact absurd hat (by simp)
    · constructor
      · intro hmem
        exfalso
        simp only [List.mem_append] at hmem
        rcases hmem with ((((((((hm | hm) | hm) | hm) | hm) | hm) | hm) | hm) | hm)
        · exact absurd hm (by decide)
        · exact allDone_not_mem_userSection un ua uid ucd hm
        · exact absurd hm (by decide)
        · exact renderGroups_ne_allDone gr.groups glines hrg _ hm rfl
        · exact absurd hm (by decide)
        · exact renderAttachedPolicies_ne_allDone ap.attachedPolicies alines hra
            _ hm rfl
        · exact (prompt_invariants c stdin po s2 pc hpr).2 _ hm rfl
        · exact absurd hm (by decide)
        · simp only [List.mem_cons, List.not_mem_nil, or_false] at hm
          rcases hm with hm | hm
          · exact concat3_ne_allDone
              "Couldn't get the inline policies attached to the user. Here's why: "
              e "\n" 'C' rfl (by decide) hm.symm
          · exact absurd hm (by decide)
      · intro hok
        exfalso
        obtain ⟨_, _, ⟨i, hi⟩⟩ := allTopLevelOk_elim c r u un hgu hru hun hok
        rw [hi] at hin
        exact absurd hin (by simp)
    · constructor
      · intro _
        exact ⟨r, u, un, hgu, hru, hun, ⟨gr, hgr⟩, ⟨ap, hat⟩, ⟨ip, hin⟩⟩
      · intro _
        simp

/-- Witness for C10 on the declined-prompt sample run. -/
theorem c10_witness :
    main (.ok sampleClient) ["n"] = some sampleRunN ∧
    ("All done!\n" ∈ sampleRunN.out ↔ AllTopLevelOk sampleClient) :=
  ⟨rfl, c10_allDone_iff_topLevelOk sampleClient ["n"] sampleRunN rfl⟩

end AwsEnumerator
